import Mathlib

/-!
Verification of the SEO ops tool's audit engine (`app/services/seo_audit.py`),
rule-based enforcement engine (`app/services/seo_fix.py`), A/B statistics
engine (`app/services/next_iteration.py`) and export gate (`app/main.py`),
via a shallow embedding.  Python strings are modelled as lists of Unicode
code points; floating point arithmetic is idealised over `ℚ`/`ℝ`.
-/

set_option maxRecDepth 8000
set_option linter.unusedVariables false

namespace SeoOps

/-- Strings are modelled as lists of Unicode code points, matching Python `str`. -/
abbrev Str := List Char

/-- Convert a Lean string literal to the model representation. -/
def str (s : String) : Str := s.toList

/-- Whitespace characters recognised by Python's `str.strip` / `\s` (ASCII range). -/
def isSpace (c : Char) : Bool :=
  c == ' ' || c == '\t' || c == '\n' || c == '\r' || c == '\x0b' || c == '\x0c'

/-- Python `str.lstrip()`. -/
def lstrip (s : Str) : Str := s.dropWhile isSpace

/-- Python `str.rstrip()`. -/
def rstrip (s : Str) : Str := (s.reverse.dropWhile isSpace).reverse

/-- Python `str.strip()`. -/
def strip (s : Str) : Str := rstrip (lstrip s)

/-- Python `str.lower()` (ASCII case folding). -/
def lower (s : Str) : Str := s.map Char.toLower

/-- Python `str.upper()` (ASCII case folding). -/
def upper (s : Str) : Str := s.map Char.toUpper

/-- Python substring containment, `needle in hay`. -/
def occurs : Str → Str → Bool
  | n, [] => n.isEmpty
  | n, c :: t => n.isPrefixOf (c :: t) || occurs n t

/-- Worker for `countOcc`: `skip` counts characters still to be consumed by
the most recent match. -/
def countOccGo (n : Str) : Nat → Str → Nat
  | _, [] => 0
  | s + 1, _ :: t => countOccGo n s t
  | 0, c :: t =>
    if n.isPrefixOf (c :: t) then 1 + countOccGo n (n.length - 1) t
    else countOccGo n 0 t

/-- Python `str.count` for a non-empty needle: non-overlapping occurrences,
scanning left to right.  (The sources only call it with a non-empty needle.) -/
def countOcc (n h : Str) : Nat :=
  if n.isEmpty then 0 else countOccGo n 0 h

/-- Worker for `splitSeq`: `cur` is the reversed current segment, `skip`
counts characters still to be consumed by the most recent separator match. -/
def splitSeqGo (sep : Str) : Nat → Str → Str → List Str
  | _, cur, [] => [cur.reverse]
  | s + 1, cur, _ :: t => splitSeqGo sep s cur t
  | 0, cur, c :: t =>
    if ¬sep.isEmpty && sep.isPrefixOf (c :: t) then
      cur.reverse :: splitSeqGo sep (sep.length - 1) [] t
    else splitSeqGo sep 0 (c :: cur) t

/-- Python `str.split(sep)` for a non-empty separator; with an empty separator
the string is returned unsplit (the sources never split on an empty separator). -/
def splitSeq (sep : Str) (s : Str) : List Str := splitSeqGo sep 0 [] s

/-- Splits a list at its first `'>'`, when there is one. -/
def splitAtGt : Str → Option (Str × Str)
  | [] => none
  | c :: t =>
    if c == '>' then some ([], t)
    else
      match splitAtGt t with
      | none => none
      | some (a, b) => some (c :: a, b)

theorem splitAtGt_length : ∀ {s a b : Str}, splitAtGt s = some (a, b) →
    s.length = a.length + b.length + 1 := by
  intro s
  induction s with
  | nil => intro a b h; simp [splitAtGt] at h
  | cons c t ih =>
    intro a b h
    by_cases hc : c = '>'
    · simp [splitAtGt, hc] at h
      simp [← h.1, ← h.2]
    · simp only [splitAtGt, hc] at h
      rw [if_neg (by simp [hc])] at h
      cases hs : splitAtGt t with
      | none => rw [hs] at h; simp at h
      | some p =>
        rw [hs] at h
        cases p with
        | mk a' b' =>
          simp at h
          have := ih hs
          rw [← h.1, ← h.2]
          simp [this]
          omega

/-- Worker for `subTags`: `pending = some buf` means we are inside a candidate
tag whose body so far is `buf` reversed. -/
def subTagsGo : Option Str → Str → Str
  | none, [] => []
  | some buf, [] => '<' :: buf.reverse
  | none, c :: t => if c = '<' then subTagsGo (some []) t else c :: subTagsGo none t
  | some buf, c :: t =>
    if c = '>' then
      if buf.isEmpty then '<' :: '>' :: subTagsGo none t
      else ' ' :: subTagsGo none t
    else subTagsGo (some (c :: buf)) t

/-- `re.sub(r"<[^>]+>", " ", s)`: each HTML-tag-shaped span becomes one space. -/
def subTags (s : Str) : Str := subTagsGo none s

/-- `re.sub(r"\s+", " ", s)`. -/
def wsCollapse : Str → Str
  | [] => []
  | [c] => if isSpace c then [' '] else [c]
  | c :: d :: t =>
    if isSpace c then
      if isSpace d then wsCollapse (d :: t) else ' ' :: wsCollapse (d :: t)
    else c :: wsCollapse (d :: t)

/-- Worker for `tokens`: `cur` is the reversed current token. -/
def tokensGo (cur : Str) : Str → List Str
  | [] => if cur.isEmpty then [] else [cur.reverse]
  | c :: t =>
    if isSpace c then
      if cur.isEmpty then tokensGo [] t else cur.reverse :: tokensGo [] t
    else tokensGo (c :: cur) t

/-- Maximal runs of non-whitespace characters: `re.findall(r"\S+", s)`,
also Python's no-argument `str.split()`. -/
def tokens (s : Str) : List Str := tokensGo [] s

/-- Case-insensitive prefix test. -/
def isPrefixCI (n h : Str) : Bool := lower n == lower (h.take n.length)

/-- ASCII word character, for the `\b` boundary of the source's regexes. -/
def isWordChar (c : Char) : Bool := c.isAlphanum || c == '_'

/-- True when the list starts with a non-word character or is empty
(a `\b` boundary sits right before the list). -/
def wordBoundaryAt : Str → Bool
  | [] => true
  | c :: _ => !isWordChar c

/-- Worker for `countH2Open`. -/
def countH2OpenGo : Nat → Str → Nat
  | _, [] => 0
  | s + 1, _ :: t => countH2OpenGo s t
  | 0, c :: t =>
    if isPrefixCI (str "<h2") (c :: t) && wordBoundaryAt (t.drop 2) then
      1 + countH2OpenGo 2 t
    else countH2OpenGo 0 t

/-- `len(re.findall(r"<h2\b", s, re.I))`, used by the fix engine's `count_h2`. -/
def countH2Open (s : Str) : Nat := countH2OpenGo 0 s

/-- Drop through the first case-insensitive occurrence of `close`,
returning the remainder after it. -/
def dropThrough (close : Str) : Str → Option Str
  | [] => none
  | c :: t =>
    if isPrefixCI close (c :: t) then some ((c :: t).drop close.length)
    else dropThrough close t

theorem dropThrough_length : ∀ {s r : Str} {close : Str},
    dropThrough close s = some r → r.length ≤ s.length := by
  intro s
  induction s with
  | nil => intro r close h; simp [dropThrough] at h
  | cons c t ih =>
    intro r close h
    simp only [dropThrough] at h
    split at h
    · simp at h
      rw [← h]
      have := List.length_drop close.length (c :: t)
      omega
    · have := ih h
      simp only [List.length_cons]; omega

/-- Worker for `countPairs`: after a successful match the scan resumes right
after the closing tag, expressed as a skip count. -/
def countPairsGo (tag close : Str) : Nat → Str → Nat
  | _, [] => 0
  | s + 1, _ :: t => countPairsGo tag close s t
  | 0, c :: t =>
    if isPrefixCI tag (c :: t) && wordBoundaryAt ((c :: t).drop tag.length) then
      match splitAtGt ((c :: t).drop tag.length) with
      | some (_, rest) =>
        match dropThrough close rest with
        | some rem => 1 + countPairsGo tag close ((c :: t).length - rem.length - 1) t
        | none => countPairsGo tag close 0 t
      | none => countPairsGo tag close 0 t
    else countPairsGo tag close 0 t

/-- `len(re.findall(tag + r"\b[^>]*>(.*?)" + close, s, re.I | re.S))`:
count of properly closed tag blocks, as in the audit's `H1_RE` / `H2_RE`. -/
def countPairs (tag close : Str) (s : Str) : Nat := countPairsGo tag close 0 s

/-! ## Data model: the page snapshot (`services/seo_fix.py`, `services/seo_audit.py`) -/

/-- One FAQ entry, the `{"q": ..., "a": ...}` dicts of the source. -/
structure FaqItem where
  q : Str
  a : Str
deriving DecidableEq

/-- The flattened page snapshot handled by `_rule_fix` and `seo_audit_page`. -/
structure Page where
  meta_title : Str
  meta_description : Str
  canonical_url : Str
  og_title : Str
  og_description : Str
  h1 : Str
  body_html : Str
  cta : Str
  faq : List FaqItem
  has_faq_jsonld : Bool
deriving DecidableEq

/-! ## `services/seo_fix.py`: the rule-based enforcement engine -/

/-- `seo_fix.strip_tags`: tags to spaces, whitespace collapsed, stripped. -/
def strip_tags (html : Str) : Str := strip (wsCollapse (subTags html))

/-- `seo_fix.word_count`: `len(re.findall(r"\S+", text))`. -/
def word_count (text : Str) : Nat := (tokens text).length

/-- `seo_fix.count_h2`: `len(_H2_RE.findall(body_html))` with `_H2_RE = <h2\b` (I). -/
def count_h2 (body_html : Str) : Nat := countH2Open body_html

/-- `seo_fix.ensure_nonempty`. -/
def ensure_nonempty (s fallback : Str) : Str :=
  let s' := strip s
  if s'.isEmpty then fallback else s'

/-- `seo_fix.clamp_text_len`: force a string into the `[lo, hi]` length window,
padding with `pad` when short and truncating when long. -/
def clamp_text_len (s : Str) (lo hi : Nat) (pad : Str) : Str :=
  let s0 := strip s
  let s1 := if s0.isEmpty then pad else s0
  let s2 :=
    if s1.length < lo then (s1 ++ str " " ++ pad).take (lo + (lo - s1.length)) else s1
  if hi < s2.length then rstrip (s2.take hi) else s2

/-- The intro paragraph prepended by `ensure_primary_in_intro`. -/
def introBlock (kw : Str) : Str :=
  str "<p><b>" ++ kw ++
    str "</b>를 찾는 분들을 위해, 이 페이지는 선택 기준/사용 루틴/FAQ를 사실 기반으로 정리했습니다.</p>"

/-- `seo_fix.ensure_primary_in_intro`: prepend an intro paragraph when the
primary keyword is missing from the first 120 words. -/
def ensure_primary_in_intro (body_html kw : Str) : Str :=
  let plain := strip_tags body_html
  let first120 := (str " ").intercalate ((tokens plain).take 120)
  if !kw.isEmpty && !occurs kw first120 then introBlock kw ++ str "\n" ++ body_html
  else body_html

/-- The disclaimer block appended by `ensure_disclaimer`. -/
def disclaimerBlock : Str :=
  str "<p><i>※ 안내: 본 내용은 일반 정보이며 개인 피부 상태에 따라 반응이 다를 수 있습니다. 사용 중 이상 반응이 있으면 사용을 중단하고 전문가와 상담하세요.</i></p>"

/-- `seo_fix.ensure_disclaimer`. -/
def ensure_disclaimer (body_html : Str) : Str :=
  let plain := strip_tags body_html
  if occurs (str "개인차") plain || occurs (str "전문가") plain ||
      occurs (str "이상 반응") plain then body_html
  else body_html ++ str "\n" ++ disclaimerBlock

/-- The sentence appended by `ensure_supporting_hits`. -/
def supportLine (insert : List Str) : Str :=
  str "<p>관련 키워드 기준으로는 " ++
    (str ", ").intercalate (insert.map (fun x => str "<b>" ++ x ++ str "</b>")) ++
    str " 관점에서 함께 살펴보는 것이 도움이 됩니다.</p>"

/-- `seo_fix.ensure_supporting_hits`. -/
def ensure_supporting_hits (body_html : Str) (supporting : List Str) (minHits : Nat) : Str :=
  let sup := supporting.filter (fun s => !s.isEmpty)
  if sup.isEmpty then body_html
  else
    let plain := lower (strip_tags body_html)
    let hits := (sup.filter (fun s => occurs (lower s) plain)).length
    if minHits ≤ hits then body_html
    else
      let insert := sup.take (max 2 (minHits - hits + 1))
      body_html ++ str "\n" ++ supportLine insert

/-- Rebuilding step of `reduce_keyword_density`: occurrence `i` (1-based) is
replaced by the neutral phrase when `i ≥ 4` and `i` is even. -/
def rebuildParts (kw rep : Str) : Nat → List Str → Str
  | _, [] => []
  | i, p :: ps => (if 4 ≤ i && i % 2 == 0 then rep else kw) ++ p ++ rebuildParts kw rep (i + 1) ps

/-- `seo_fix.reduce_keyword_density` with `max_density = maxNum / maxDen`
(the source's comparison `occ / max(wc, 1) <= max_density` is taken as the
exact cross-multiplied integer comparison; the default call passes 3/100). -/
def reduce_keyword_density (body_html kw : Str) (maxNum maxDen : Nat) : Str :=
  if kw.isEmpty then body_html
  else
    let plain := strip_tags body_html
    let wc := word_count plain
    if wc = 0 then body_html
    else
      let occ := countOcc kw plain
      if occ * maxDen ≤ maxNum * max wc 1 then body_html
      else
        let parts := splitSeq kw body_html
        if parts.length ≤ 1 then body_html
        else
          match parts with
          | [] => body_html
          | p0 :: rest => p0 ++ rebuildParts kw (str "해당 제품") 1 rest

/-- `seo_fix.ensure_h1`. -/
def ensure_h1 (kw : Str) (p : Page) : Page :=
  { p with h1 := ensure_nonempty p.h1 kw }

/-- Minimum `<h2>` count demanded by `ensure_h2_sections`. -/
def min_h2 (intent : Str) : Nat := if strip intent = str "구매형" then 3 else 2

/-- The canned sections of `ensure_h2_sections`. -/
def h2Sections (kw intent : Str) : List Str :=
  [str "<h2>" ++ kw ++ str " 핵심 포인트</h2><p>" ++ kw ++
     str "를 고를 때는 보습 지속감, 사용감, 성분 구성, 개인 피부 컨디션을 함께 고려하는 것이 좋습니다.</p>",
   str "<h2>성분/구성 체크</h2><p>세라마이드, 판테놀 등은 보습/진정 루틴에서 자주 언급됩니다. 다만 개인차가 있으니 패치 테스트를 권장합니다.</p>",
   str "<h2>사용 루틴</h2><p>세안 후 토너 다음 단계에서 적당량을 얇게 펴 바르고, 건조한 부위는 소량을 레이어링하세요. 낮에는 자외선 차단제로 마무리하세요.</p>"] ++
  (if strip intent = str "구매형" then
    [str "<h2>구매 전 확인</h2><ul><li>피부 타입/민감도와의 적합성(패치 테스트 권장)</li><li>제형/사용감(계절/습도에 따라 체감 차이)</li><li>전성분 및 알레르기 유발 가능 성분 확인</li></ul>"]
   else [])

/-- `seo_fix.ensure_h2_sections`. -/
def ensure_h2_sections (kw intent : Str) (p : Page) : Page :=
  let body := p.body_html
  let current := count_h2 body
  if min_h2 intent ≤ current then p
  else
    let needed := min_h2 intent - current
    if 0 < needed then
      { p with body_html :=
          body ++ str "\n" ++ (str "\n").intercalate ((h2Sections kw intent).take needed) }
    else p

/-- The canned Q/A candidates of `ensure_faq`. -/
def faqCandidates (kw : Str) : List FaqItem :=
  [⟨kw ++ str "는 민감 피부도 사용 가능한가요?",
    str "개인차가 있으므로 사용 전 패치 테스트를 권장합니다."⟩,
   ⟨str "아침/저녁 모두 사용해도 되나요?",
    str "일반적인 보습 루틴에서 아침/저녁 사용이 가능하며 피부 상태에 따라 사용량을 조절하세요."⟩,
   ⟨str "어떤 순서로 바르면 좋나요?",
    str "세안→토너→(에센스/세럼)→크림 순으로 마무리하는 방식이 일반적입니다."⟩,
   ⟨str "향이나 제형이 궁금해요.",
    str "제품별로 상이하므로 상세 페이지의 표기 정보를 확인하는 것을 권장합니다."⟩]

/-- One iteration of `ensure_faq`'s candidate loop: stop at `minFaq` entries,
skip candidates whose question is already present, otherwise append. -/
def faqStep (minFaq : Nat) (st : List FaqItem × List Str) (c : FaqItem) :
    List FaqItem × List Str :=
  if minFaq ≤ st.1.length then st
  else if c.q ∈ st.2 then st
  else (st.1 ++ [c], st.2 ++ [c.q])

/-- `seo_fix.ensure_faq`: top up the FAQ list to `minFaq` entries and set the
JSON-LD flag. -/
def ensure_faq (kw : Str) (minFaq : Nat) (p : Page) : Page :=
  let st := (faqCandidates kw).foldl (faqStep minFaq)
    (p.faq, p.faq.map (fun it => strip it.q))
  { p with faq := st.1, has_faq_jsonld := true }

/-- `seo_fix.ensure_cta`. -/
def ensure_cta (intent : Str) (p : Page) : Page :=
  if !(strip p.cta).isEmpty then p
  else { p with cta := if strip intent = str "구매형" then str "지금 구매하기" else str "자세히 보기" }

/-- The canned expansion block appended by `ensure_body_length`. -/
def bodyPad (kw : Str) : Str :=
  str "<h2>" ++ kw ++ str " 선택 기준</h2><p>" ++ kw ++
    str "를 선택할 때는 보습 지속감, 자극 가능성(개인차), 사용감(흡수/잔여감), 계절/습도 환경을 함께 고려하는 것이 좋습니다.</p>" ++
    str "<h2>사용 팁</h2><p>크림은 적당량을 여러 번 레이어링하는 방식이 더 편안할 수 있습니다. 건조한 부위는 소량을 한 번 더 덧바르세요.</p>" ++
    str "<h2>주의 사항</h2><p>사용 중 붉어짐/가려움/따가움 등 이상 반응이 있으면 사용을 중단하고 전문가와 상담하세요.</p>"

/-- The bounded append loop of `ensure_body_length` (`while wc < min_words and
loops < 3`), with the remaining loop budget as fuel. -/
def padLoopGo (minWords : Nat) (pad : Str) : Nat → Str → Str
  | 0, b => b
  | n + 1, b =>
    if word_count (strip_tags b) < minWords then padLoopGo minWords pad n (b ++ str "\n" ++ pad)
    else b

/-- `seo_fix.ensure_body_length`. -/
def ensure_body_length (kw : Str) (minWords : Nat) (p : Page) : Page :=
  let body := p.body_html
  if minWords ≤ word_count (strip_tags body) then p
  else { p with body_html := padLoopGo minWords (bodyPad kw) 3 body }

/-- Python `str.rstrip("/")`. -/
def rstripSlash (s : Str) : Str := (s.reverse.dropWhile (fun c => c == '/')).reverse

/-- `seo_fix.ensure_canonical`. -/
def ensure_canonical (runId : Int) (baseUrl : Str) (p : Page) : Page :=
  if !(strip p.canonical_url).isEmpty then p
  else
    let base := rstripSlash (if baseUrl.isEmpty then str "https://example.com" else baseUrl)
    { p with canonical_url := base ++ str "/r/" ++ str (toString runId) }

/-- `seo_fix.ensure_og`. -/
def ensure_og (p : Page) : Page :=
  { p with og_title := ensure_nonempty p.og_title p.meta_title,
           og_description := ensure_nonempty p.og_description p.meta_description }

/-- `seo_fix._rule_fix`: the full deterministic enforcement pipeline. -/
def rule_fix (page : Page) (primary_kw : Str) (supporting : List Str) (intent : Str)
    (run_id : Option Int) (base_url : Option Str) : Page :=
  let fixed : Page :=
    { meta_title := strip page.meta_title,
      meta_description := strip page.meta_description,
      canonical_url := strip page.canonical_url,
      og_title := strip page.og_title,
      og_description := strip page.og_description,
      h1 := strip page.h1,
      body_html := strip page.body_html,
      cta := strip page.cta,
      faq := page.faq,
      has_faq_jsonld := page.has_faq_jsonld }
  let padT := primary_kw ++ str " 가이드 | 선택 기준"
  let padD := primary_kw ++ str " 선택 기준, 사용 루틴, FAQ를 정리했습니다. 개인차가 있어 패치 테스트를 권장합니다."
  let fixed := { fixed with meta_title := clamp_text_len fixed.meta_title 20 60 padT }
  let fixed := { fixed with meta_description := clamp_text_len fixed.meta_description 60 170 padD }
  let fixed := ensure_h1 primary_kw fixed
  let fixed := ensure_cta intent fixed
  let fixed := ensure_h2_sections primary_kw intent fixed
  let fixed := ensure_faq primary_kw 3 fixed
  let fixed := ensure_body_length primary_kw 360 fixed
  let fixed := { fixed with body_html := ensure_primary_in_intro fixed.body_html primary_kw }
  let fixed := { fixed with body_html := ensure_supporting_hits fixed.body_html supporting 2 }
  let fixed := { fixed with body_html := ensure_disclaimer fixed.body_html }
  let fixed := { fixed with body_html := reduce_keyword_density fixed.body_html primary_kw 3 100 }
  let fixed :=
    match run_id, base_url with
    | some rid, some burl => ensure_canonical rid burl fixed
    | _, _ => fixed
  ensure_og fixed

/-! ## `services/seo_audit.py`: the audit engine -/

/-- `seo_audit._strip_tags`: tags to spaces (no whitespace collapsing). -/
def stripTagsA (html : Str) : Str := subTags html

/-- `seo_audit._norm`: collapse whitespace, strip, lower-case. -/
def norm (s : Str) : Str := lower (strip (wsCollapse s))

/-- `seo_audit._word_count`. -/
def word_count_audit (text : Str) : Nat :=
  let t := wsCollapse (strip text)
  if t.isEmpty then 0 else (splitSeq (str " ") t).length

/-- One audit issue; the source also carries free-text `message`/`fix_hint`
fields, which are presentation-only and omitted here. -/
structure Issue where
  rule_id : Str
  severity : Str
deriving DecidableEq

/-- The audit verdict produced by `seo_audit_page` (diagnostic `signals` are
exposed as the standalone `audit*` definitions below). -/
structure AuditResult where
  overall : Str
  score : Int
  issues : List Issue
deriving DecidableEq

/-- The banned medical/absolute-claim terms of the audit's E002 rule. -/
def bannedTerms : List Str :=
  [str "완치", str "치료", str "즉시", str "무조건", str "100%", str "부작용 없음",
   str "의사 추천", str "염증 치료", str "아토피 치료", str "피부병 치료"]

/-- The disclaimer phrases accepted by the audit's E001 rule. -/
def disclaimerCandidates : List Str :=
  [str "개인차", str "피부 상태", str "패치 테스트", str "민감한 경우"]

/-- Signal: the tag-stripped body text. -/
def auditBodyText (p : Page) : Str := stripTagsA p.body_html

/-- Signal: body word count. -/
def auditWords (p : Page) : Nat := word_count_audit (auditBodyText p)

/-- Signal: occurrences of the normalized primary keyword in the normalized body. -/
def auditPrimaryCount (p : Page) (kw : Str) : Nat :=
  let np := norm (strip kw)
  if np.isEmpty then 0 else countOcc np (norm (auditBodyText p))

/-- Signal: rough primary-keyword density, in percent. -/
def auditDensity (p : Page) (kw : Str) : ℚ :=
  let words := auditWords p
  if 0 < words then (auditPrimaryCount p kw : ℚ) / ((max words 1 : ℕ) : ℚ) * 100 else 0

/-- The audit's C007 trigger `density > 3.0`, as an exact integer test. -/
def auditDensityGt3 (p : Page) (kw : Str) : Prop :=
  0 < auditWords p ∧ 3 * max (auditWords p) 1 < auditPrimaryCount p kw * 100

instance (p : Page) (kw : Str) : Decidable (auditDensityGt3 p kw) := by
  unfold auditDensityGt3
  exact instDecidableAnd

/-- Signal: `<h1>` block count, falling back to the `h1` field when the markup
has none. -/
def auditH1Count (p : Page) : Nat :=
  let c := if p.body_html.isEmpty then 0 else countPairs (str "<h1") (str "</h1>") p.body_html
  if ¬(strip p.h1).isEmpty ∧ c = 0 then 1 else c

/-- Signal: `<h2>` block count. -/
def auditH2Count (p : Page) : Nat :=
  if p.body_html.isEmpty then 0 else countPairs (str "<h2") (str "</h2>") p.body_html

/-- Signal: the first 120 space-separated fields of the body text, re-joined. -/
def auditFirst120 (p : Page) : Str :=
  (str " ").intercalate ((splitSeq (str " ") (auditBodyText p)).take 120)

/-- The cleaned supporting-keyword list. -/
def auditSupporting (sup : List Str) : List Str :=
  (sup.map strip).filter (fun s => ¬s.isEmpty)

/-- Signal: number of supporting keywords found in the normalized body. -/
def auditSupportingHits (p : Page) (sup : List Str) : Nat :=
  ((auditSupporting sup).filter
    (fun sk => ¬(norm sk).isEmpty ∧ occurs (norm sk) (norm (auditBodyText p)))).length

/-- Signal: normalized primary keyword appears in the normalized H1. -/
def auditPrimaryInH1 (p : Page) (kw : Str) : Bool :=
  let np := norm (strip kw)
  ¬np.isEmpty ∧ occurs np (norm (strip p.h1))

/-- Signal: normalized primary keyword appears in the first-120-words window. -/
def auditPrimaryInFirst120 (p : Page) (kw : Str) : Bool :=
  let np := norm (strip kw)
  ¬np.isEmpty ∧ occurs np (norm (auditFirst120 p))

/-- Signal: count of fully populated FAQ entries. -/
def auditFaqCount (p : Page) : Nat :=
  (p.faq.filter (fun it => ¬(strip it.q).isEmpty ∧ ¬(strip it.a).isEmpty)).length

/-- Signal: the audit's effective FAQ JSON-LD flag
(`bool(page.get("has_faq_jsonld")) or (len(faq) >= 3)`). -/
def auditHasFaqJsonld (p : Page) : Bool :=
  p.has_faq_jsonld ∨ 3 ≤ p.faq.length

/-- The audit's rule evaluations in source order.  Each `add(rule, severity,
msg, hint, p)` call of the source appends the issue and adds `p` to the
penalty, modelled as a `(issue, penalty)` pair. -/
def auditBlocks (p : Page) (kw : Str) (sup : List Str) (intent : Str) :
    List (Issue × Nat) :=
  let meta_title := strip p.meta_title
  let meta_desc := strip p.meta_description
  let canonical := strip p.canonical_url
  let og_title := strip p.og_title
  let og_desc := strip p.og_description
  let body_text := auditBodyText p
  let primary := strip kw
  let supporting := auditSupporting sup
  (if meta_title.isEmpty then [(⟨str "T001", str "FAIL"⟩, 25)]
   else if ¬(30 ≤ meta_title.length ∧ meta_title.length ≤ 60) then
     [(⟨str "T002", str "WARN"⟩, 10)]
   else []) ++
  (if meta_desc.isEmpty then [(⟨str "T003", str "FAIL"⟩, 25)]
   else if ¬(70 ≤ meta_desc.length ∧ meta_desc.length ≤ 160) then
     [(⟨str "T004", str "WARN"⟩, 10)]
   else []) ++
  (if canonical.isEmpty then [(⟨str "T005", str "WARN"⟩, 10)] else []) ++
  (if auditH1Count p ≠ 1 then [(⟨str "T006", str "FAIL"⟩, 25)] else []) ++
  (if og_title.isEmpty ∨ og_desc.isEmpty then [(⟨str "T007", str "INFO"⟩, 2)] else []) ++
  (if ¬primary.isEmpty ∧ auditPrimaryInH1 p kw = false then
     [(⟨str "C001", str "FAIL"⟩, 25)] else []) ++
  (if ¬primary.isEmpty ∧ auditPrimaryInFirst120 p kw = false then
     [(⟨str "C002", str "WARN"⟩, 10)] else []) ++
  (if ¬supporting.isEmpty ∧ auditSupportingHits p sup < 2 then
     [(⟨str "C003", str "WARN"⟩, 10)] else []) ++
  (if auditH2Count p < 3 then [(⟨str "C004", str "FAIL"⟩, 25)] else []) ++
  (if auditWords p < 350 then [(⟨str "C005", str "WARN"⟩, 10)] else []) ++
  (if ¬primary.isEmpty ∧ auditDensityGt3 p kw then
     [(⟨str "C007", str "FAIL"⟩, 25)] else []) ++
  (if (bannedTerms.find?
      (fun w => occurs w body_text || occurs w meta_title || occurs w meta_desc)).isSome then
     [(⟨str "E002", str "FAIL"⟩, 25)]
   else []) ++
  (if ¬(disclaimerCandidates.any (fun x => occurs x body_text)) then
     [(⟨str "E001", str "WARN"⟩, 10)] else []) ++
  (if auditFaqCount p < 3 then [(⟨str "S001", str "WARN"⟩, 10)] else []) ++
  (if 3 ≤ auditFaqCount p ∧ auditHasFaqJsonld p = false then
     [(⟨str "S002", str "WARN"⟩, 10)] else [])

/-- The audit's issue list: the issues pushed by each `add` call, in order. -/
def auditIssues (p : Page) (kw : Str) (sup : List Str) (intent : Str) : List Issue :=
  (auditBlocks p kw sup intent).map Prod.fst

/-- The audit's accumulated penalty. -/
def auditPenalty (p : Page) (kw : Str) (sup : List Str) (intent : Str) : Nat :=
  ((auditBlocks p kw sup intent).map Prod.snd).sum

/-- The audit's score: `max(0, 100 - penalty)`. -/
def auditScore (p : Page) (kw : Str) (sup : List Str) (intent : Str) : Int :=
  max 0 (100 - (auditPenalty p kw sup intent : Int))

/-- The audit's verdict: FAIL on any FAIL issue, else WARN on ≥ 2 WARN issues,
else PASS. -/
def auditOverall (p : Page) (kw : Str) (sup : List Str) (intent : Str) : Str :=
  if (auditIssues p kw sup intent).any (fun i => i.severity == str "FAIL") then str "FAIL"
  else if 2 ≤ ((auditIssues p kw sup intent).filter
      (fun i => i.severity == str "WARN")).length then str "WARN"
  else str "PASS"

/-- `seo_audit.seo_audit_page`: run all rules, then derive score and verdict. -/
def seo_audit_page (p : Page) (kw : Str) (sup : List Str) (intent : Str) :
    AuditResult :=
  { overall := auditOverall p kw sup intent,
    score := auditScore p kw sup intent,
    issues := auditIssues p kw sup intent }

theorem seo_audit_page_issues (p : Page) (kw : Str) (sup : List Str) (intent : Str) :
    (seo_audit_page p kw sup intent).issues = (auditBlocks p kw sup intent).map Prod.fst := by
  simp only [seo_audit_page]
  rfl

theorem seo_audit_page_overall (p : Page) (kw : Str) (sup : List Str) (intent : Str) :
    (seo_audit_page p kw sup intent).overall = auditOverall p kw sup intent := by
  simp only [seo_audit_page]

theorem seo_audit_page_score (p : Page) (kw : Str) (sup : List Str) (intent : Str) :
    (seo_audit_page p kw sup intent).score = auditScore p kw sup intent := by
  simp only [seo_audit_page]

/-! ## `app/main.py`: the export endpoint's PASS gate -/

/-- The slice of a stored run record that `api_export` inspects: the most
recently recorded audit result (if any) and the stage label. -/
structure RunState where
  audit_overall : Option Str
  stage : Str
deriving DecidableEq

/-- Outcome of an `api_export` call: either a structured refusal or a written
artifact, together with the resulting run state. -/
structure ExportOutcome where
  ok : Bool
  error : Option Str
  artifact : Option Str
  run : RunState
deriving DecidableEq

/-- The verdict the endpoint derives from the stored audit:
`(audit.get("overall") or "UNKNOWN").strip().upper()`. -/
def exportVerdict (r : RunState) : Str :=
  upper (strip (match r.audit_overall with
    | none => str "UNKNOWN"
    | some v => if v.isEmpty then str "UNKNOWN" else v))

/-- The structured refusal message of the export gate. -/
def exportBlockedMsg (verdict : Str) : Str :=
  str "Export blocked: requires PASS (current=" ++ verdict ++
    str "). Run Audit → Fix/Auto first."

/-- `app/main.py api_export`, restricted to its gate and state effects:
refuse with a structured error, writing nothing, unless the most recently
recorded verdict is PASS; on PASS write the artifact and advance the stage. -/
def api_export (r : RunState) (run_id : Int) : ExportOutcome :=
  let overall := exportVerdict r
  if overall ≠ str "PASS" then
    { ok := false, error := some (exportBlockedMsg overall), artifact := none, run := r }
  else
    { ok := true, error := none,
      artifact := some (str "run_" ++ str (toString run_id) ++ str ".html"),
      run := { r with stage := str "EXPORTED" } }

/-! ## `services/next_iteration.py`: the A/B statistical engine
(floating point idealised over `ℝ`) -/

/-- The Gauss error function `math.erf`. -/
noncomputable def erf (x : ℝ) : ℝ :=
  2 / Real.sqrt Real.pi * ∫ t in (0:ℝ)..x, Real.exp (-t ^ 2)

/-- `next_iteration._phi_cdf`: the standard normal CDF. -/
noncomputable def phi_cdf (x : ℝ) : ℝ := 0.5 * (1 + erf (x / Real.sqrt 2))

/-- `next_iteration._p_value_two_sided`. -/
noncomputable def p_value_two_sided (z : ℝ) : ℝ := 2 * (1 - phi_cdf |z|)

/-- One recorded A/B interaction event. -/
structure ABEvent where
  variant : Str
  event_name : Str
deriving DecidableEq

/-- Per-variant block of an A/B summary. -/
structure VariantStat where
  view : Nat
  click : Nat
  ctr : ℝ

/-- The summary returned by `ab_ctr_summary`. -/
structure ABSummary where
  A : VariantStat
  B : VariantStat
  uplift : ℝ
  z : ℝ
  p_value : ℝ
  min_views_required : Nat
  recommend_variant : Option Str

/-- The event counter of `ab_ctr_summary`:
`sum(1 for e in events if e["variant"] == v and e["event_name"] == n)`. -/
def abCount (events : List ABEvent) (v n : Str) : Nat :=
  (events.filter (fun e => e.variant = v ∧ e.event_name = n)).length

/-- The click-through rate: `(click / view) if view > 0 else 0.0`. -/
noncomputable def abCtr (click view : Nat) : ℝ :=
  if 0 < view then (click : ℝ) / (view : ℝ) else 0

open Classical in
/-- `ab_ctr_summary`'s pooled two-proportion z statistic (`z` stays 0 when a
variant has no views). -/
noncomputable def abZ (A_view A_click B_view B_click : Nat) : ℝ :=
  if 0 < A_view ∧ 0 < B_view then
    let p_pool : ℝ :=
      if 0 < A_view + B_view then
        ((A_click : ℝ) + (B_click : ℝ)) / ((A_view : ℝ) + (B_view : ℝ))
      else 0
    let denom := Real.sqrt
      (max (p_pool * (1 - p_pool) * (1 / (A_view : ℝ) + 1 / (B_view : ℝ))) (1 / 10 ^ 12))
    (abCtr B_click B_view - abCtr A_click A_view) / denom
  else 0

open Classical in
/-- `ab_ctr_summary`'s p-value (`pval` stays 1.0 when a variant has no views). -/
noncomputable def abPval (A_view A_click B_view B_click : Nat) : ℝ :=
  if 0 < A_view ∧ 0 < B_view then p_value_two_sided (abZ A_view A_click B_view B_click)
  else 1

open Classical in
/-- `ab_ctr_summary`'s recommendation: only when both variants reach the view
floor and the p-value is under 0.1; `"B" if B_ctr > A_ctr else "A"`. -/
noncomputable def abRecommend (m A_view A_click B_view B_click : Nat) : Option Str :=
  if m ≤ A_view ∧ m ≤ B_view ∧ abPval A_view A_click B_view B_click < 0.1 then
    some (if abCtr A_click A_view < abCtr B_click B_view then str "B" else str "A")
  else none

/-- `next_iteration.ab_ctr_summary`. -/
noncomputable def ab_ctr_summary (events : List ABEvent) (min_views_required : Nat) :
    ABSummary :=
  let A_view := abCount events (str "A") (str "view")
  let A_click := abCount events (str "A") (str "cta_click")
  let B_view := abCount events (str "B") (str "view")
  let B_click := abCount events (str "B") (str "cta_click")
  { A := ⟨A_view, A_click, abCtr A_click A_view⟩,
    B := ⟨B_view, B_click, abCtr B_click B_view⟩,
    uplift := abCtr B_click B_view - abCtr A_click A_view,
    z := abZ A_view A_click B_view B_click,
    p_value := abPval A_view A_click B_view B_click,
    min_views_required := min_views_required,
    recommend_variant := abRecommend min_views_required A_view A_click B_view B_click }

/-! ## Claim C9: bounded body-length padding -/

theorem padLoopGo_spec (m : Nat) (pad : Str) :
    ∀ (n : Nat) (b : Str), ∃ k ≤ n,
      padLoopGo m pad n b = b ++ (List.replicate k (str "\n" ++ pad)).flatten := by
  intro n
  induction n with
  | zero =>
    intro b
    exact ⟨0, le_refl 0, by simp [padLoopGo]⟩
  | succ n ih =>
    intro b
    by_cases h : word_count (strip_tags b) < m
    · obtain ⟨k, hk, he⟩ := ih (b ++ str "\n" ++ pad)
      refine ⟨k + 1, by omega, ?_⟩
      rw [padLoopGo, if_pos h, he]
      simp [List.replicate_succ, List.append_assoc]
    · exact ⟨0, by omega, by rw [padLoopGo, if_neg h]; simp⟩

/-- Claim C9: `ensure_body_length` terminates for every input page, appending
the canned expansion block at most 3 times and appending nothing when the body
already has at least 360 words (the enforcement engine is total by
construction). -/
theorem c9_body_length_bounded (p : Page) (kw : Str) :
    (360 ≤ word_count (strip_tags p.body_html) → ensure_body_length kw 360 p = p) ∧
    ∃ k ≤ 3, ensure_body_length kw 360 p =
      { p with body_html := p.body_html ++ (List.replicate k (str "\n" ++ bodyPad kw)).flatten } := by
  constructor
  · intro h
    simp only [ensure_body_length, if_pos h]
  · by_cases h : 360 ≤ word_count (strip_tags p.body_html)
    · refine ⟨0, by omega, ?_⟩
      simp only [ensure_body_length, if_pos h, List.replicate_zero, List.flatten_nil,
        List.append_nil]
    · obtain ⟨k, hk, he⟩ := padLoopGo_spec 360 (bodyPad kw) 3 p.body_html
      refine ⟨k, hk, ?_⟩
      simp only [ensure_body_length, if_neg h, he]

/-- A concrete page whose body already holds 360 words. -/
def pageLong : Page :=
  { meta_title := str "aaaaaaaaaaaaaaaaaaaaaaaaaaaaaaaaaaa",
    meta_description := List.replicate 100 'd',
    canonical_url := str "https://e.com/x",
    og_title := str "x", og_description := str "x",
    h1 := str "x",
    body_html := str "<h2>x</h2><h2>y</h2>" ++ (List.replicate 357 (str " a")).flatten ++ str " 개인차",
    cta := str "x",
    faq := [⟨str "q1", str "a1"⟩, ⟨str "q2", str "a2"⟩, ⟨str "q3", str "a3"⟩],
    has_faq_jsonld := true }

theorem c9_body_length_bounded_witness :
    360 ≤ word_count (strip_tags pageLong.body_html) ∧
      ensure_body_length [] 360 pageLong = pageLong :=
  ⟨by decide, (c9_body_length_bounded pageLong []).1 (by decide)⟩

/-! ## Claim C6: the export gate -/

/-- Claim C6: `api_export` refuses whenever the most recently recorded verdict
is not PASS (including WARN, FAIL and no recorded audit): it returns a
structured error naming the current verdict, writes no artifact and leaves the
run state unchanged; on a recorded PASS it proceeds and writes the artifact. -/
theorem c6_export_gate (r : RunState) (rid : Int) :
    (exportVerdict r ≠ str "PASS" →
      (api_export r rid).ok = false ∧
      (api_export r rid).error = some (exportBlockedMsg (exportVerdict r)) ∧
      (api_export r rid).artifact = none ∧
      (api_export r rid).run = r) ∧
    (exportVerdict r = str "PASS" →
      (api_export r rid).ok = true ∧
      (api_export r rid).artifact = some (str "run_" ++ str (toString rid) ++ str ".html")) ∧
    ((r.audit_overall = none ∨ r.audit_overall = some (str "WARN") ∨
        r.audit_overall = some (str "FAIL")) → exportVerdict r ≠ str "PASS") := by
  refine ⟨?_, ?_, ?_⟩
  · intro h
    simp [api_export, if_pos h]
  · intro h
    simp [api_export, h]
  · rintro (h | h | h) <;> simp only [exportVerdict, h] <;> decide

theorem c6_export_gate_witness :
    exportVerdict ⟨some (str "WARN"), str "AUDIT_DONE"⟩ ≠ str "PASS" ∧
      (api_export ⟨some (str "WARN"), str "AUDIT_DONE"⟩ 7).artifact = none ∧
      (api_export ⟨some (str "WARN"), str "AUDIT_DONE"⟩ 7).run =
        ⟨some (str "WARN"), str "AUDIT_DONE"⟩ :=
  ⟨by decide,
   ((c6_export_gate ⟨some (str "WARN"), str "AUDIT_DONE"⟩ 7).1 (by decide)).2.2.1,
   ((c6_export_gate ⟨some (str "WARN"), str "AUDIT_DONE"⟩ 7).1 (by decide)).2.2.2⟩

/-! ## Claim C10: the A/B summary ignores out-of-domain events -/

/-- Claim C10: appending an event whose variant is neither "A" nor "B", or
whose event name is neither "view" nor "cta_click", leaves every field of
`ab_ctr_summary`'s result unchanged. -/
theorem c10_ab_ignores_foreign_events (events : List ABEvent) (e : ABEvent) (m : Nat)
    (h : (e.variant ≠ str "A" ∧ e.variant ≠ str "B") ∨
         (e.event_name ≠ str "view" ∧ e.event_name ≠ str "cta_click")) :
    ab_ctr_summary (events ++ [e]) m = ab_ctr_summary events m := by
  have hcount : ∀ (v n : Str), (v = str "A" ∨ v = str "B") →
      (n = str "view" ∨ n = str "cta_click") →
      abCount (events ++ [e]) v n = abCount events v n := by
    intro v n hv hn
    unfold abCount
    rw [List.filter_append]
    have hsing : ([e] : List ABEvent).filter
        (fun x => decide (x.variant = v ∧ x.event_name = n)) = [] := by
      simp only [List.filter, decide_eq_true_eq]
      rcases h with ⟨h1, h2⟩ | ⟨h1, h2⟩ <;> rcases hv with rfl | rfl <;>
        rcases hn with rfl | rfl <;> simp_all
    rw [hsing, List.append_nil]
  simp only [ab_ctr_summary]
  rw [hcount _ _ (Or.inl rfl) (Or.inl rfl), hcount _ _ (Or.inl rfl) (Or.inr rfl),
      hcount _ _ (Or.inr rfl) (Or.inl rfl), hcount _ _ (Or.inr rfl) (Or.inr rfl)]

theorem c10_ab_ignores_foreign_events_witness :
    ((⟨str "C", str "view"⟩ : ABEvent).variant ≠ str "A" ∧
      (⟨str "C", str "view"⟩ : ABEvent).variant ≠ str "B") ∧
    ab_ctr_summary ([⟨str "A", str "view"⟩] ++ [⟨str "C", str "view"⟩]) 20 =
      ab_ctr_summary [⟨str "A", str "view"⟩] 20 :=
  ⟨⟨by decide, by decide⟩,
   c10_ab_ignores_foreign_events [⟨str "A", str "view"⟩] ⟨str "C", str "view"⟩ 20
     (Or.inl ⟨by decide, by decide⟩)⟩

/-! ## Concrete test inputs -/

/-- A page with an empty meta title (and otherwise already-compliant fields),
used to refute idempotence of `_rule_fix`. -/
def pageEmptyTitle : Page :=
  { meta_title := [],
    meta_description := List.replicate 60 'd',
    canonical_url := str "https://e.com/x",
    og_title := str "x", og_description := str "x",
    h1 := str "x",
    body_html := str "<h2>x</h2><h2>y</h2>" ++ (List.replicate 357 (str " a")).flatten ++
      str " 개인차",
    cta := str "x",
    faq := [⟨str "q1", str "a1"⟩, ⟨str "q2", str "a2"⟩, ⟨str "q3", str "a3"⟩],
    has_faq_jsonld := true }

/-- The same page with three incomplete FAQ entries and the JSON-LD flag unset. -/
def pageIncompleteFaq : Page :=
  { pageEmptyTitle with
    faq := [⟨str "q1", []⟩, ⟨str "q2", []⟩, ⟨str "q3", []⟩],
    has_faq_jsonld := false }

/-- An otherwise empty page with three complete FAQ entries and the JSON-LD
flag unset: the S002 trigger described by the rule catalog. -/
def pageFaq3 : Page :=
  { meta_title := [], meta_description := [], canonical_url := [], og_title := [],
    og_description := [], h1 := [], body_html := [], cta := [],
    faq := [⟨str "q1", str "a1"⟩, ⟨str "q2", str "a2"⟩, ⟨str "q3", str "a3"⟩],
    has_faq_jsonld := false }

/-- A body with 7 keyword occurrences in 101 words: density 7/101 ≈ 6.9%. -/
def bodyDense : Str :=
  (List.replicate 7 (str "크림 ")).flatten ++ (List.replicate 93 (str "a ")).flatten ++ str "b"

/-- A page carrying `bodyDense`. -/
def pageDense : Page :=
  { meta_title := [], meta_description := [], canonical_url := [], og_title := [],
    og_description := [], h1 := [], body_html := bodyDense, cta := [],
    faq := [], has_faq_jsonld := false }

/-! ## Claim C1 counterexample -/

/-- Claim C1 counterexample: on a page with an empty meta title and an empty
primary keyword, the second `_rule_fix` application changes `meta_title` again
(the first produces a pad with a leading space, which the second strips), so
the engine is not idempotent field-for-field. -/
theorem c1_rule_fix_not_idempotent :
    (rule_fix (rule_fix pageEmptyTitle [] [] [] (some 1) (some (str "http://t"))) [] [] []
        (some 1) (some (str "http://t"))).meta_title ≠
      (rule_fix pageEmptyTitle [] [] [] (some 1) (some (str "http://t"))).meta_title := by
  decide

/-! ## Claim C2: the FAQ JSON-LD invariant -/

/-- Claim C2 counterexample: a page whose FAQ list holds three incomplete
entries leaves `_rule_fix` with `has_faq_jsonld = true` but zero complete
entries, breaking the complete-entry invariant. -/
theorem c2_faq_invariant_fails :
    ¬ ((rule_fix pageIncompleteFaq [] [] [] (some 1) (some (str "http://t"))).has_faq_jsonld =
        true ↔
      3 ≤ auditFaqCount (rule_fix pageIncompleteFaq [] [] [] (some 1)
        (some (str "http://t")))) := by
  decide

theorem faqStep_stable {m : Nat} {st : List FaqItem × List Str} (h : m ≤ st.1.length)
    (c : FaqItem) : faqStep m st c = st := by
  unfold faqStep
  rw [if_pos h]

theorem faqFold_stable {m : Nat} {st : List FaqItem × List Str} (h : m ≤ st.1.length) :
    ∀ cs : List FaqItem, List.foldl (faqStep m) st cs = st := by
  intro cs
  induction cs with
  | nil => rfl
  | cons c cs ih => rw [List.foldl_cons, faqStep_stable h, ih]

/-- Progress of the `ensure_faq` candidate loop: the loop reaches
`min m (start + number of candidates not already seen)` FAQ entries. -/
theorem faqFold_reaches (m : Nat) :
    ∀ (cs : List FaqItem) (st : List FaqItem × List Str),
      (cs.map (fun c => c.q)).Nodup →
      min m (st.1.length + cs.countP (fun c => decide (c.q ∉ st.2))) ≤
        (List.foldl (faqStep m) st cs).1.length := by
  intro cs
  induction cs with
  | nil =>
    intro st _
    simp only [List.foldl_nil, List.countP_nil, Nat.add_zero]
    exact min_le_right _ _
  | cons c cs ih =>
    intro st hnd
    rw [List.foldl_cons]
    by_cases hstop : m ≤ st.1.length
    · rw [faqStep_stable hstop, faqFold_stable hstop]
      exact le_trans (min_le_left _ _) hstop
    · by_cases hmem : c.q ∈ st.2
      · have hstep : faqStep m st c = st := by
          unfold faqStep
          rw [if_neg hstop, if_pos hmem]
        have hcnt : (c :: cs).countP (fun c => decide (c.q ∉ st.2)) =
            cs.countP (fun c => decide (c.q ∉ st.2)) := by
          rw [List.countP_cons]
          simp [hmem]
        rw [hstep, hcnt]
        exact ih st (List.Nodup.of_cons hnd)
      · have hstep : faqStep m st c = (st.1 ++ [c], st.2 ++ [c.q]) := by
          unfold faqStep
          rw [if_neg hstop, if_neg hmem]
        have hqnot : c.q ∉ cs.map (fun c => c.q) := (List.nodup_cons.1 hnd).1
        have h1 : cs.countP (fun x => decide (x.q ∉ st.2)) =
            cs.countP (fun x => decide (x.q ∉ st.2 ++ [c.q])) := by
          apply List.countP_congr
          intro x hx
          have hxne : x.q ≠ c.q := by
            intro hcontr
            exact hqnot (hcontr ▸ List.mem_map_of_mem _ hx)
          simp [List.mem_append, hxne]
        have hcnt : (c :: cs).countP (fun x => decide (x.q ∉ st.2)) =
            cs.countP (fun x => decide (x.q ∉ st.2 ++ [c.q])) + 1 := by
          rw [List.countP_cons, h1]
          simp [hmem]
        have hres := ih (st.1 ++ [c], st.2 ++ [c.q]) (List.Nodup.of_cons hnd)
        rw [hstep, hcnt]
        refine le_trans (le_of_eq ?_) hres
        simp only [List.length_append, List.length_cons, List.length_nil]
        omega

theorem faqCandidates_q_nodup (kw : Str) :
    ((faqCandidates kw).map (fun c => c.q)).Nodup := by
  have hfp : (kw ++ str "는 민감 피부도 사용 가능한가요?").reverse.take 4 =
      (str "는 민감 피부도 사용 가능한가요?").reverse.take 4 := by
    rw [List.reverse_append]
    exact List.take_append_of_le_length (by decide)
  simp only [faqCandidates, List.map_cons, List.map_nil, List.nodup_cons,
    List.mem_cons, List.not_mem_nil, or_false, List.nodup_nil, and_true]
  refine ⟨?_, by decide, by decide⟩
  rintro (h | h | h) <;>
    · have := congrArg (fun l : Str => l.reverse.take 4) h
      simp only at this
      rw [hfp] at this
      exact absurd this (by decide)

/-- `ensure_faq` always leaves at least `min_faq = 3` FAQ entries. -/
theorem ensure_faq_len (kw : Str) (p : Page) : 3 ≤ (ensure_faq kw 3 p).faq.length := by
  unfold ensure_faq
  have hnd := faqCandidates_q_nodup kw
  have hin : ((faqCandidates kw).countP
      (fun c => decide (c.q ∈ p.faq.map (fun it => strip it.q)))) ≤
      (p.faq.map (fun it => strip it.q)).length := by
    rw [List.countP_eq_length_filter]
    have hndf : (((faqCandidates kw).filter
        (fun c => decide (c.q ∈ p.faq.map (fun it => strip it.q)))).map
          (fun c => c.q)).Nodup :=
      List.Nodup.sublist (List.Sublist.map _ (List.filter_sublist _)) hnd
    have hsub : (((faqCandidates kw).filter
        (fun c => decide (c.q ∈ p.faq.map (fun it => strip it.q)))).map
          (fun c => c.q)) ⊆ p.faq.map (fun it => strip it.q) := by
      intro x hx
      obtain ⟨c, hc, rfl⟩ := List.mem_map.1 hx
      exact of_decide_eq_true (List.mem_filter.1 hc).2
    have := (hndf.subperm hsub).length_le
    simpa using this
  have htot := List.length_eq_countP_add_countP
    (fun c : FaqItem => decide (c.q ∈ p.faq.map (fun it => strip it.q))) (faqCandidates kw)
  have hconv : (faqCandidates kw).countP
      (fun c => decide (¬(decide (c.q ∈ p.faq.map (fun it => strip it.q))) = true)) =
      (faqCandidates kw).countP
        (fun c => decide (c.q ∉ p.faq.map (fun it => strip it.q))) := by
    apply List.countP_congr
    intro x _
    simp
  have hc4 : (faqCandidates kw).length = 4 := rfl
  have hmain := faqFold_reaches 3 (faqCandidates kw)
    (p.faq, p.faq.map (fun it => strip it.q)) hnd
  rw [hc4, hconv] at htot
  simp only [List.length_map] at htot hin
  have h4 : 4 ≤ p.faq.length + (faqCandidates kw).countP
      (fun c => decide (c.q ∉ p.faq.map (fun it => strip it.q))) := by
    omega
  show 3 ≤ (List.foldl (faqStep 3) (p.faq, p.faq.map (fun it => strip it.q))
    (faqCandidates kw)).1.length
  exact le_trans (le_min le_rfl (le_trans (by norm_num) h4)) hmain

theorem ensure_faq_flag (kw : Str) (m : Nat) (p : Page) :
    (ensure_faq kw m p).has_faq_jsonld = true := rfl

theorem ensure_og_faq (p : Page) : (ensure_og p).faq = p.faq := rfl

theorem ensure_og_flag (p : Page) : (ensure_og p).has_faq_jsonld = p.has_faq_jsonld := rfl

theorem ensure_canonical_faq (r : Int) (b : Str) (p : Page) :
    (ensure_canonical r b p).faq = p.faq := by
  unfold ensure_canonical; split <;> rfl

theorem ensure_canonical_flag (r : Int) (b : Str) (p : Page) :
    (ensure_canonical r b p).has_faq_jsonld = p.has_faq_jsonld := by
  unfold ensure_canonical; split <;> rfl

theorem ensure_body_length_faq (kw : Str) (m : Nat) (p : Page) :
    (ensure_body_length kw m p).faq = p.faq := by
  simp only [ensure_body_length]
  split <;> rfl

theorem ensure_body_length_flag (kw : Str) (m : Nat) (p : Page) :
    (ensure_body_length kw m p).has_faq_jsonld = p.has_faq_jsonld := by
  simp only [ensure_body_length]
  split <;> rfl

/-- Claim C2 (amended): after every `_rule_fix` call, `has_faq_jsonld` is true
and the FAQ list has at least 3 entries — the invariant holds with entries
counted regardless of completeness.  (With complete-entry counting it fails;
see the counterexample.) -/
theorem c2_faq_flag_and_length (p : Page) (kw : Str) (sup : List Str) (intent : Str)
    (rid : Option Int) (burl : Option Str) :
    (rule_fix p kw sup intent rid burl).has_faq_jsonld = true ∧
    3 ≤ (rule_fix p kw sup intent rid burl).faq.length ∧
    ((rule_fix p kw sup intent rid burl).has_faq_jsonld = true ↔
      3 ≤ (rule_fix p kw sup intent rid burl).faq.length) := by
  have hmain : ∀ q : Page, (rule_fix q kw sup intent rid burl).has_faq_jsonld = true ∧
      3 ≤ (rule_fix q kw sup intent rid burl).faq.length := by
    intro q
    unfold rule_fix
    rcases rid with _ | r <;> rcases burl with _ | b <;>
      simp only [ensure_og_faq, ensure_og_flag, ensure_canonical_faq, ensure_canonical_flag,
        ensure_body_length_faq, ensure_body_length_flag, ensure_faq_flag, ensure_faq_len,
        and_self, true_and]
  obtain ⟨h1, h2⟩ := hmain p
  exact ⟨h1, h2, by rw [h1]; simp [h2]⟩

/-! ## Claim C7: keyword density -/

/-- Claim C7 counterexample: `bodyDense` is over the 3% density threshold both
before and after `reduce_keyword_density` (7 occurrences in 101 words become 5
in 103 — still ≈ 4.9%), so the transform does not re-establish the threshold. -/
theorem c7_density_reduction_insufficient :
    (3 / 100 : ℚ) <
      (countOcc (str "크림") (strip_tags bodyDense) : ℚ) /
        (word_count (strip_tags bodyDense) : ℚ) ∧
    (3 / 100 : ℚ) <
      (countOcc (str "크림")
          (strip_tags (reduce_keyword_density bodyDense (str "크림") 3 100)) : ℚ) /
        (word_count
          (strip_tags (reduce_keyword_density bodyDense (str "크림") 3 100)) : ℚ) := by
  have h1 : countOcc (str "크림") (strip_tags bodyDense) = 7 := by decide
  have h2 : word_count (strip_tags bodyDense) = 101 := by decide
  have h3 : countOcc (str "크림")
      (strip_tags (reduce_keyword_density bodyDense (str "크림") 3 100)) = 5 := by decide
  have h4 : word_count
      (strip_tags (reduce_keyword_density bodyDense (str "크림") 3 100)) = 103 := by decide
  rw [h1, h2, h3, h4]
  norm_num

/-- The audit's percent density exceeds 3 exactly when the integer test fires. -/
theorem auditDensity_gt3_iff (p : Page) (kw : Str) :
    3 < auditDensity p kw ↔ auditDensityGt3 p kw := by
  unfold auditDensity auditDensityGt3
  by_cases h : 0 < auditWords p
  · rw [if_pos h]
    simp only [h, true_and]
    have hmax : (0 : ℚ) < ((max (auditWords p) 1 : ℕ) : ℚ) := by
      have : 0 < max (auditWords p) 1 := lt_of_lt_of_le Nat.zero_lt_one (Nat.le_max_right _ _)
      exact_mod_cast this
    rw [div_mul_eq_mul_div, lt_div_iff₀ hmax]
    exact_mod_cast Iff.rfl
  · rw [if_neg h]
    simp [h]

/-- Claim C7 (amended): whenever the audit's own density measure exceeds 3%
(for a non-empty primary keyword), the audit emits FAIL issue C007.
`reduce_keyword_density` only applies its fixed substitution pattern and need
not bring the density at or below 3% (see the counterexample). -/
theorem c7_audit_flags_overdensity (p : Page) (kw : Str) (sup : List Str) (intent : Str)
    (hkw : (strip kw).isEmpty = false) (hd : 3 < auditDensity p kw) :
    (⟨str "C007", str "FAIL"⟩ : Issue) ∈ (seo_audit_page p kw sup intent).issues := by
  have hcond : ¬(strip kw).isEmpty ∧ auditDensityGt3 p kw := by
    refine ⟨by simp [hkw], (auditDensity_gt3_iff p kw).1 hd⟩
  rw [seo_audit_page_issues]
  apply List.mem_map_of_mem Prod.fst (a := ((⟨str "C007", str "FAIL"⟩ : Issue), 25))
  unfold auditBlocks
  simp only [List.mem_append]
  refine Or.inl (Or.inl (Or.inl (Or.inl (Or.inr ?_))))
  rw [if_pos hcond]
  exact List.mem_singleton_self _

theorem c7_audit_flags_overdensity_witness :
    (strip (str "크림")).isEmpty = false ∧ 3 < auditDensity pageDense (str "크림") ∧
      (⟨str "C007", str "FAIL"⟩ : Issue) ∈ (seo_audit_page pageDense (str "크림") [] []).issues :=
  ⟨by decide, (auditDensity_gt3_iff pageDense (str "크림")).2 (by decide),
   c7_audit_flags_overdensity pageDense (str "크림") [] []
     (by decide) ((auditDensity_gt3_iff pageDense (str "크림")).2 (by decide))⟩

/-! ## Claim C8: rule S002 is dead code -/

theorem mem_if_singleton {α : Type} {c : Prop} [Decidable c] {x y : α}
    (h : x ∈ (if c then [y] else ([] : List α))) : c ∧ x = y := by
  by_cases hc : c
  · rw [if_pos hc] at h
    exact ⟨hc, List.mem_singleton.1 h⟩
  · rw [if_neg hc] at h
    cases h

/-- Claim C8 (code bug): `seo_audit_page` computes its FAQ JSON-LD flag as
`bool(page.has_faq_jsonld) or (len(faq) >= 3)`, so whenever there are ≥ 3
complete FAQ entries the flag is forced true and rule S002 can never fire —
for every input, no emitted issue carries rule id S002; in particular the
S002 trigger described by the rule catalog (≥ 3 complete entries, flag false)
yields no S002 issue. -/
theorem c8_s002_unreachable :
    (∀ (p : Page) (kw : Str) (sup : List Str) (intent : Str),
      ∀ i ∈ (seo_audit_page p kw sup intent).issues, i.rule_id ≠ str "S002") ∧
    (3 ≤ auditFaqCount pageFaq3 ∧ pageFaq3.has_faq_jsonld = false ∧
      ∀ i ∈ (seo_audit_page pageFaq3 [] [] []).issues, i.rule_id ≠ str "S002") := by
  have hmain : ∀ (p : Page) (kw : Str) (sup : List Str) (intent : Str),
      ∀ i ∈ (seo_audit_page p kw sup intent).issues, i.rule_id ≠ str "S002" := by
    intro p kw sup intent i hi
    rw [seo_audit_page_issues] at hi
    obtain ⟨b, hb, rfl⟩ := List.mem_map.1 hi
    unfold auditBlocks at hb
    simp only [List.mem_append] at hb
    rcases hb with (((((((((((((hb | hb) | hb) | hb) | hb) | hb) | hb) | hb) | hb) | hb) | hb) | hb) | hb) | hb) | hb
    · -- T001 / T002
      split at hb
      · obtain rfl := List.mem_singleton.1 hb; decide
      · obtain ⟨_, rfl⟩ := mem_if_singleton hb; decide
    · split at hb
      · obtain rfl := List.mem_singleton.1 hb; decide
      · obtain ⟨_, rfl⟩ := mem_if_singleton hb; decide
    · obtain ⟨_, rfl⟩ := mem_if_singleton hb; decide
    · obtain ⟨_, rfl⟩ := mem_if_singleton hb; decide
    · obtain ⟨_, rfl⟩ := mem_if_singleton hb; decide
    · obtain ⟨_, rfl⟩ := mem_if_singleton hb; decide
    · obtain ⟨_, rfl⟩ := mem_if_singleton hb; decide
    · obtain ⟨_, rfl⟩ := mem_if_singleton hb; decide
    · obtain ⟨_, rfl⟩ := mem_if_singleton hb; decide
    · obtain ⟨_, rfl⟩ := mem_if_singleton hb; decide
    · obtain ⟨_, rfl⟩ := mem_if_singleton hb; decide
    · obtain ⟨_, rfl⟩ := mem_if_singleton hb; decide
    · obtain ⟨_, rfl⟩ := mem_if_singleton hb; decide
    · obtain ⟨_, rfl⟩ := mem_if_singleton hb; decide
    · -- S002 block: its condition is contradictory
      obtain ⟨⟨h3, hflag⟩, rfl⟩ := mem_if_singleton hb
      exfalso
      have hlen : 3 ≤ p.faq.length :=
        le_trans h3 (List.length_filter_le _ _)
      have : auditHasFaqJsonld p = true := by
        simp [auditHasFaqJsonld, hlen]
      rw [this] at hflag
      cases hflag
  exact ⟨hmain, by decide, by decide, hmain pageFaq3 [] [] []⟩

/-! ## Claim C4: score and verdict -/

/-- The rule catalog's penalty for each rule id (0 for unknown ids). -/
def issuePenalty (i : Issue) : Nat :=
  if i.rule_id = str "T001" then 25
  else if i.rule_id = str "T002" then 10
  else if i.rule_id = str "T003" then 25
  else if i.rule_id = str "T004" then 10
  else if i.rule_id = str "T005" then 10
  else if i.rule_id = str "T006" then 25
  else if i.rule_id = str "T007" then 2
  else if i.rule_id = str "C001" then 25
  else if i.rule_id = str "C002" then 10
  else if i.rule_id = str "C003" then 10
  else if i.rule_id = str "C004" then 25
  else if i.rule_id = str "C005" then 10
  else if i.rule_id = str "C007" then 25
  else if i.rule_id = str "E001" then 10
  else if i.rule_id = str "E002" then 25
  else if i.rule_id = str "S001" then 10
  else if i.rule_id = str "S002" then 10
  else 0

theorem seo_audit_page_issues' (p : Page) (kw : Str) (sup : List Str) (intent : Str) :
    (seo_audit_page p kw sup intent).issues = auditIssues p kw sup intent := by
  simp only [seo_audit_page]

/-- Every issue pushed by the audit carries its catalog penalty. -/
theorem auditBlocks_penalty (p : Page) (kw : Str) (sup : List Str) (intent : Str) :
    ∀ b ∈ auditBlocks p kw sup intent, issuePenalty b.1 = b.2 := by
  intro b hb
  unfold auditBlocks at hb
  simp only [List.mem_append] at hb
  rcases hb with (((((((((((((hb | hb) | hb) | hb) | hb) | hb) | hb) | hb) | hb) | hb) | hb) | hb) | hb) | hb) | hb
  · split at hb
    · obtain rfl := List.mem_singleton.1 hb; decide
    · obtain ⟨_, rfl⟩ := mem_if_singleton hb; decide
  · split at hb
    · obtain rfl := List.mem_singleton.1 hb; decide
    · obtain ⟨_, rfl⟩ := mem_if_singleton hb; decide
  · obtain ⟨_, rfl⟩ := mem_if_singleton hb; decide
  · obtain ⟨_, rfl⟩ := mem_if_singleton hb; decide
  · obtain ⟨_, rfl⟩ := mem_if_singleton hb; decide
  · obtain ⟨_, rfl⟩ := mem_if_singleton hb; decide
  · obtain ⟨_, rfl⟩ := mem_if_singleton hb; decide
  · obtain ⟨_, rfl⟩ := mem_if_singleton hb; decide
  · obtain ⟨_, rfl⟩ := mem_if_singleton hb; decide
  · obtain ⟨_, rfl⟩ := mem_if_singleton hb; decide
  · obtain ⟨_, rfl⟩ := mem_if_singleton hb; decide
  · obtain ⟨_, rfl⟩ := mem_if_singleton hb; decide
  · obtain ⟨_, rfl⟩ := mem_if_singleton hb; decide
  · obtain ⟨_, rfl⟩ := mem_if_singleton hb; decide
  · obtain ⟨_, rfl⟩ := mem_if_singleton hb; decide

theorem sum_map_cast_penalty (l : List Issue) :
    (l.map (fun i => (issuePenalty i : Int))).sum = ((l.map issuePenalty).sum : Int) := by
  induction l with
  | nil => simp
  | cons a l ih => simp [ih]

theorem penalty_sum (p : Page) (kw : Str) (sup : List Str) (intent : Str) :
    ((auditIssues p kw sup intent).map issuePenalty).sum = auditPenalty p kw sup intent := by
  unfold auditIssues auditPenalty
  rw [List.map_map]
  refine congrArg List.sum ?_
  apply List.map_congr_left
  intro b hb
  simp only [Function.comp_apply]
  exact auditBlocks_penalty p kw sup intent b hb

/-- Claim C4: the audit's score is `max(0, 100 − Σ penalties of the emitted
issues)`; the verdict is FAIL iff some emitted issue has severity FAIL, WARN
iff there is no FAIL issue and at least 2 WARN issues, and PASS otherwise —
INFO issues never change the verdict. -/
theorem c4_score_and_verdict (p : Page) (kw : Str) (sup : List Str) (intent : Str) :
    (seo_audit_page p kw sup intent).score =
      max 0 (100 - ((seo_audit_page p kw sup intent).issues.map
        (fun i => (issuePenalty i : Int))).sum) ∧
    ((seo_audit_page p kw sup intent).overall = str "FAIL" ↔
      ∃ i ∈ (seo_audit_page p kw sup intent).issues, i.severity = str "FAIL") ∧
    ((seo_audit_page p kw sup intent).overall = str "WARN" ↔
      (¬∃ i ∈ (seo_audit_page p kw sup intent).issues, i.severity = str "FAIL") ∧
       2 ≤ ((seo_audit_page p kw sup intent).issues.filter
         (fun i => i.severity == str "WARN")).length) ∧
    ((seo_audit_page p kw sup intent).overall = str "PASS" ↔
      (¬∃ i ∈ (seo_audit_page p kw sup intent).issues, i.severity = str "FAIL") ∧
       ((seo_audit_page p kw sup intent).issues.filter
         (fun i => i.severity == str "WARN")).length < 2) := by
  have hIss := seo_audit_page_issues' p kw sup intent
  have hany : ((auditIssues p kw sup intent).any
      (fun i => i.severity == str "FAIL") = true) ↔
      ∃ i ∈ auditIssues p kw sup intent, i.severity = str "FAIL" := by
    simp [List.any_eq_true]
  rw [seo_audit_page_score, seo_audit_page_overall, hIss]
  unfold auditScore auditOverall
  refine ⟨?_, ?_⟩
  · rw [sum_map_cast_penalty, penalty_sum]
  · by_cases h1 : (auditIssues p kw sup intent).any
        (fun i => i.severity == str "FAIL") = true
    · rw [if_pos h1]
      have hex := hany.1 h1
      refine ⟨⟨fun _ => hex, fun _ => rfl⟩, ?_, ?_⟩
      · exact ⟨fun hcontr => absurd hcontr (by decide), fun ⟨hno, _⟩ => absurd hex hno⟩
      · exact ⟨fun hcontr => absurd hcontr (by decide), fun ⟨hno, _⟩ => absurd hex hno⟩
    · rw [if_neg h1]
      have hno : ¬∃ i ∈ auditIssues p kw sup intent, i.severity = str "FAIL" :=
        fun hc => h1 (hany.2 hc)
      by_cases h2 : 2 ≤ ((auditIssues p kw sup intent).filter
          (fun i => i.severity == str "WARN")).length
      · rw [if_pos h2]
        refine ⟨?_, ?_, ?_⟩
        · exact ⟨fun hcontr => absurd hcontr (by decide), fun hex => absurd hex hno⟩
        · exact ⟨fun _ => ⟨hno, h2⟩, fun _ => rfl⟩
        · exact ⟨fun hcontr => absurd hcontr (by decide),
            fun ⟨_, hlt⟩ => absurd h2 (not_le.2 hlt)⟩
      · rw [if_neg h2]
        refine ⟨?_, ?_, ?_⟩
        · exact ⟨fun hcontr => absurd hcontr (by decide), fun hex => absurd hex hno⟩
        · exact ⟨fun hcontr => absurd hcontr (by decide), fun ⟨_, hge⟩ => absurd hge h2⟩
        · exact ⟨fun _ => ⟨hno, not_le.1 h2⟩, fun _ => rfl⟩

/-! ## Whitespace lemmas for Claim C3 -/

/-- Shorthand for the non-whitespace test used below. -/
def nsp (c : Char) : Bool := !isSpace c

theorem any_nsp_dropWhile (l : Str) :
    ((List.dropWhile isSpace l).any nsp) = l.any nsp := by
  induction l with
  | nil => rfl
  | cons c t ih =>
    by_cases h : isSpace c
    · rw [List.dropWhile_cons, if_pos h, ih, List.any_cons]
      simp [nsp, h]
    · rw [List.dropWhile_cons, if_neg h]

theorem any_nsp_rstrip (l : Str) : ((rstrip l).any nsp) = l.any nsp := by
  unfold rstrip
  rw [List.any_reverse, any_nsp_dropWhile, List.any_reverse]

theorem any_nsp_lstrip (l : Str) : ((lstrip l).any nsp) = l.any nsp := by
  unfold lstrip
  exact any_nsp_dropWhile l

theorem any_nsp_strip (l : Str) : ((strip l).any nsp) = l.any nsp := by
  unfold strip
  rw [any_nsp_rstrip, any_nsp_lstrip]

/-- A string containing a non-space character does not strip to empty. -/
theorem strip_isEmpty_false {s : Str} (h : s.any nsp = true) :
    (strip s).isEmpty = false := by
  rw [List.isEmpty_eq_false]
  intro hnil
  have := any_nsp_strip s
  rw [hnil] at this
  simp only [List.any_nil] at this
  rw [h] at this
  cases this

theorem lstrip_shape (l : Str) :
    lstrip l = [] ∨ ∃ c u, lstrip l = c :: u ∧ isSpace c = false := by
  induction l with
  | nil => exact Or.inl rfl
  | cons c t ih =>
    by_cases h : isSpace c
    · rw [lstrip, List.dropWhile_cons, if_pos h]
      exact ih
    · rw [lstrip, List.dropWhile_cons, if_neg h]
      exact Or.inr ⟨c, t, rfl, by simpa using h⟩

theorem dropWhile_append_last {c : Char} (hc : isSpace c = false) (m : Str) :
    ∃ v, List.dropWhile isSpace (m ++ [c]) = v ++ [c] := by
  induction m with
  | nil =>
    refine ⟨[], ?_⟩
    simp [List.dropWhile_cons, hc]
  | cons a m ih =>
    by_cases h : isSpace a
    · obtain ⟨v, hv⟩ := ih
      exact ⟨v, by simpa [List.dropWhile_cons, h] using hv⟩
    · exact ⟨a :: m, by simp [List.dropWhile_cons, h]⟩

theorem rstrip_cons_nonspace {c : Char} (hc : isSpace c = false) (t : Str) :
    ∃ u, rstrip (c :: t) = c :: u := by
  unfold rstrip
  obtain ⟨v, hv⟩ := dropWhile_append_last hc t.reverse
  refine ⟨v.reverse, ?_⟩
  rw [show (c :: t).reverse = t.reverse ++ [c] by simp, hv]
  simp

/-- A non-empty stripped string starts with a non-space character. -/
theorem strip_shape (s : Str) :
    strip s = [] ∨ ∃ c u, strip s = c :: u ∧ isSpace c = false := by
  rcases lstrip_shape s with h | ⟨c, u, hcu, hc⟩
  · left
    unfold strip
    rw [h]
    rfl
  · right
    obtain ⟨v, hv⟩ := rstrip_cons_nonspace hc u
    exact ⟨c, v, by unfold strip; rw [hcu, hv], hc⟩

/-- The head of a stripped non-empty string is non-space. -/
theorem stripped_head {c : Char} {u : Str} (h : strip (c :: u) = c :: u) :
    isSpace c = false := by
  rcases strip_shape (c :: u) with hnil | ⟨c', u', hcu, hc'⟩
  · rw [h] at hnil; cases hnil
  · rw [h] at hcu
    injection hcu with h1 _
    rw [← h1] at hc'
    exact hc'

theorem take_any_of_take2 {l : Str} {n : Nat} (hn : 2 ≤ n)
    (h : (l.take 2).any nsp = true) : (l.take n).any nsp = true := by
  obtain ⟨x, hx, hpx⟩ := List.any_eq_true.1 h
  refine List.any_eq_true.2 ⟨x, ?_, hpx⟩
  have : List.take 2 (l.take n) = l.take 2 := by
    rw [List.take_take, Nat.min_eq_left hn]
  exact List.mem_of_mem_take (n := 2) (by rw [this]; exact hx)

theorem any_of_take {l : Str} {n : Nat} (h : (l.take n).any nsp = true) :
    l.any nsp = true := by
  obtain ⟨x, hx, hpx⟩ := List.any_eq_true.1 h
  exact List.any_eq_true.2 ⟨x, List.mem_of_mem_take hx, hpx⟩

theorem cons_take_any {c : Char} (hc : isSpace c = false) (u : Str) {n : Nat}
    (hn : 1 ≤ n) : (((c :: u).take n).any nsp) = true := by
  obtain ⟨m, rfl⟩ := Nat.exists_eq_add_of_le hn
  rw [Nat.add_comm, List.take_succ_cons, List.any_cons]
  simp [nsp, hc]

/-- A keyword-led pad whose constant tail shows a non-space character within
its first two characters keeps one within its own first two characters,
provided the keyword is stripped. -/
theorem pad_take2_any {kw tailStr : Str} (hkw : strip kw = kw)
    (htail : ((tailStr.take 2).any nsp) = true) :
    (((kw ++ tailStr).take 2).any nsp) = true := by
  cases kw with
  | nil => simpa using htail
  | cons c u =>
    have hc : isSpace c = false := stripped_head hkw
    exact cons_take_any hc _ (by omega)

theorem any_take2_append {p : Str} (t : Str) (h : ((p.take 2).any nsp) = true) :
    (((p ++ t).take 2).any nsp) = true := by
  match p with
  | [] => simp at h
  | [a] =>
    simp only [List.take_succ_cons, List.take_nil, List.any_cons, List.any_nil,
      Bool.or_false] at h
    simp only [List.cons_append, List.nil_append, List.take_succ_cons, List.any_cons]
    rw [h]
    rfl
  | a :: b :: rest =>
    simp only [List.take_succ_cons, List.take_zero] at h
    simpa only [List.cons_append, List.take_succ_cons, List.take_zero] using h

theorem any_take2_of_take (l : Str) {n : Nat} (hn : 2 ≤ n) :
    (l.take n).take 2 = l.take 2 := by
  rw [List.take_take, Nat.min_eq_left hn]

/-- The clamped text always keeps a non-space character when the pad shows one
within its first two characters. -/
theorem clamp_any_nonspace (s pad : Str) (lo hi : Nat) (hlo : 2 ≤ lo) (hhi : 2 ≤ hi)
    (hpad : ((pad.take 2).any nsp) = true) :
    ((clamp_text_len s lo hi pad).any nsp) = true := by
  have key2 : ∀ l : Str, (l.take 2).any nsp = true →
      ((if hi < l.length then rstrip (l.take hi) else l).any nsp) = true := by
    intro l hl
    by_cases h : hi < l.length
    · rw [if_pos h, any_nsp_rstrip]
      exact take_any_of_take2 hhi hl
    · rw [if_neg h]
      exact any_of_take hl
  simp only [clamp_text_len]
  rcases strip_shape s with hnil | ⟨c, u, hcu, hc⟩
  · rw [hnil]
    rw [if_pos (show (([] : Str).isEmpty) = true from rfl)]
    by_cases hlen : pad.length < lo
    · rw [if_pos hlen]
      apply key2
      rw [any_take2_of_take _ (show 2 ≤ lo + (lo - pad.length) by omega)]
      rw [List.append_assoc]
      exact any_take2_append _ hpad
    · rw [if_neg hlen]
      exact key2 _ hpad
  · rw [hcu]
    rw [if_neg (show ¬(((c :: u) : Str).isEmpty = true) from by simp)]
    by_cases hlen : (c :: u).length < lo
    · rw [if_pos hlen]
      apply key2
      rw [any_take2_of_take _ (show 2 ≤ lo + (lo - (c :: u).length) by omega)]
      rw [show ((c :: u) : Str) ++ str " " ++ pad = c :: (u ++ str " " ++ pad) from by simp]
      exact cons_take_any hc _ (by omega)
    · rw [if_neg hlen]
      exact key2 _ (cons_take_any hc _ (by omega))

theorem any_nsp_of_strip_ne {x : Str} (h : (strip x).isEmpty = false) :
    ((strip x).any nsp) = true := by
  rcases strip_shape x with hnil | ⟨c, u, hcu, hc⟩
  · rw [hnil] at h
    simp at h
  · rw [hcu]
    simp [nsp, hc]

/-- `ensure_nonempty` never returns an all-space string when the fallback has a
non-space character. -/
theorem ensure_nonempty_strip_ne (s fb : Str) (hfb : fb.any nsp = true) :
    (strip (ensure_nonempty s fb)).isEmpty = false := by
  simp only [ensure_nonempty]
  by_cases h : (strip s).isEmpty = true
  · rw [if_pos h]
    exact strip_isEmpty_false hfb
  · rw [if_neg h]
    exact strip_isEmpty_false (any_nsp_of_strip_ne (Bool.eq_false_iff.2 h))

/-! Field-frame lemmas: each pipeline step leaves the head fields below
untouched. -/

theorem ensure_h1_meta_title (kw : Str) (p : Page) :
    (ensure_h1 kw p).meta_title = p.meta_title := rfl

theorem ensure_h1_meta_description (kw : Str) (p : Page) :
    (ensure_h1 kw p).meta_description = p.meta_description := rfl

theorem ensure_h1_og_title (kw : Str) (p : Page) :
    (ensure_h1 kw p).og_title = p.og_title := rfl

theorem ensure_h1_og_description (kw : Str) (p : Page) :
    (ensure_h1 kw p).og_description = p.og_description := rfl

theorem ensure_h1_canonical (kw : Str) (p : Page) :
    (ensure_h1 kw p).canonical_url = p.canonical_url := rfl

theorem ensure_cta_meta_title (intent : Str) (p : Page) :
    (ensure_cta intent p).meta_title = p.meta_title := by
  unfold ensure_cta; split <;> rfl

theorem ensure_cta_meta_description (intent : Str) (p : Page) :
    (ensure_cta intent p).meta_description = p.meta_description := by
  unfold ensure_cta; split <;> rfl

theorem ensure_cta_og_title (intent : Str) (p : Page) :
    (ensure_cta intent p).og_title = p.og_title := by
  unfold ensure_cta; split <;> rfl

theorem ensure_cta_og_description (intent : Str) (p : Page) :
    (ensure_cta intent p).og_description = p.og_description := by
  unfold ensure_cta; split <;> rfl

theorem ensure_cta_canonical (intent : Str) (p : Page) :
    (ensure_cta intent p).canonical_url = p.canonical_url := by
  unfold ensure_cta; split <;> rfl

theorem ensure_h2_sections_meta_title (kw intent : Str) (p : Page) :
    (ensure_h2_sections kw intent p).meta_title = p.meta_title := by
  simp only [ensure_h2_sections]
  split
  · rfl
  · split <;> rfl

theorem ensure_h2_sections_meta_description (kw intent : Str) (p : Page) :
    (ensure_h2_sections kw intent p).meta_description = p.meta_description := by
  simp only [ensure_h2_sections]
  split
  · rfl
  · split <;> rfl

theorem ensure_h2_sections_og_title (kw intent : Str) (p : Page) :
    (ensure_h2_sections kw intent p).og_title = p.og_title := by
  simp only [ensure_h2_sections]
  split
  · rfl
  · split <;> rfl

theorem ensure_h2_sections_og_description (kw intent : Str) (p : Page) :
    (ensure_h2_sections kw intent p).og_description = p.og_description := by
  simp only [ensure_h2_sections]
  split
  · rfl
  · split <;> rfl

theorem ensure_h2_sections_canonical (kw intent : Str) (p : Page) :
    (ensure_h2_sections kw intent p).canonical_url = p.canonical_url := by
  simp only [ensure_h2_sections]
  split
  · rfl
  · split <;> rfl

theorem ensure_faq_meta_title (kw : Str) (m : Nat) (p : Page) :
    (ensure_faq kw m p).meta_title = p.meta_title := rfl

theorem ensure_faq_meta_description (kw : Str) (m : Nat) (p : Page) :
    (ensure_faq kw m p).meta_description = p.meta_description := rfl

theorem ensure_faq_og_title (kw : Str) (m : Nat) (p : Page) :
    (ensure_faq kw m p).og_title = p.og_title := rfl

theorem ensure_faq_og_description (kw : Str) (m : Nat) (p : Page) :
    (ensure_faq kw m p).og_description = p.og_description := rfl

theorem ensure_faq_canonical (kw : Str) (m : Nat) (p : Page) :
    (ensure_faq kw m p).canonical_url = p.canonical_url := rfl

theorem ensure_body_length_meta_title (kw : Str) (m : Nat) (p : Page) :
    (ensure_body_length kw m p).meta_title = p.meta_title := by
  simp only [ensure_body_length]
  split <;> rfl

theorem ensure_body_length_meta_description (kw : Str) (m : Nat) (p : Page) :
    (ensure_body_length kw m p).meta_description = p.meta_description := by
  simp only [ensure_body_length]
  split <;> rfl

theorem ensure_body_length_og_title (kw : Str) (m : Nat) (p : Page) :
    (ensure_body_length kw m p).og_title = p.og_title := by
  simp only [ensure_body_length]
  split <;> rfl

theorem ensure_body_length_og_description (kw : Str) (m : Nat) (p : Page) :
    (ensure_body_length kw m p).og_description = p.og_description := by
  simp only [ensure_body_length]
  split <;> rfl

theorem ensure_body_length_canonical (kw : Str) (m : Nat) (p : Page) :
    (ensure_body_length kw m p).canonical_url = p.canonical_url := by
  simp only [ensure_body_length]
  split <;> rfl

theorem ensure_canonical_meta_title (r : Int) (b : Str) (p : Page) :
    (ensure_canonical r b p).meta_title = p.meta_title := by
  unfold ensure_canonical; split <;> rfl

theorem ensure_canonical_meta_description (r : Int) (b : Str) (p : Page) :
    (ensure_canonical r b p).meta_description = p.meta_description := by
  unfold ensure_canonical; split <;> rfl

theorem ensure_canonical_og_title (r : Int) (b : Str) (p : Page) :
    (ensure_canonical r b p).og_title = p.og_title := by
  unfold ensure_canonical; split <;> rfl

theorem ensure_canonical_og_description (r : Int) (b : Str) (p : Page) :
    (ensure_canonical r b p).og_description = p.og_description := by
  unfold ensure_canonical; split <;> rfl

theorem ensure_canonical_canonical (r : Int) (b : Str) (p : Page) :
    (ensure_canonical r b p).canonical_url =
      if (strip p.canonical_url).isEmpty then
        rstripSlash (if b.isEmpty then str "https://example.com" else b) ++
          str "/r/" ++ str (toString r)
      else p.canonical_url := by
  unfold ensure_canonical
  by_cases h : (strip p.canonical_url).isEmpty = true
  · rw [if_neg (by simp [h]), if_pos h]
  · rw [if_pos (by simp [h]), if_neg h]

theorem ensure_og_meta_title (p : Page) : (ensure_og p).meta_title = p.meta_title := rfl

theorem ensure_og_meta_description (p : Page) :
    (ensure_og p).meta_description = p.meta_description := rfl

theorem ensure_og_canonical (p : Page) :
    (ensure_og p).canonical_url = p.canonical_url := rfl

theorem ensure_og_og_title (p : Page) :
    (ensure_og p).og_title = ensure_nonempty p.og_title p.meta_title := rfl

theorem ensure_og_og_description (p : Page) :
    (ensure_og p).og_description = ensure_nonempty p.og_description p.meta_description := rfl

/-! Head-field projections of the full pipeline. -/

theorem rule_fix_meta_title (p : Page) (kw : Str) (sup : List Str) (intent : Str)
    (r : Int) (b : Str) :
    (rule_fix p kw sup intent (some r) (some b)).meta_title =
      clamp_text_len (strip p.meta_title) 20 60 (kw ++ str " 가이드 | 선택 기준") := by
  unfold rule_fix
  simp only [ensure_og_meta_title, ensure_canonical_meta_title, ensure_body_length_meta_title,
    ensure_faq_meta_title, ensure_h2_sections_meta_title, ensure_cta_meta_title,
    ensure_h1_meta_title]

theorem rule_fix_meta_description (p : Page) (kw : Str) (sup : List Str) (intent : Str)
    (r : Int) (b : Str) :
    (rule_fix p kw sup intent (some r) (some b)).meta_description =
      clamp_text_len (strip p.meta_description) 60 170
        (kw ++ str " 선택 기준, 사용 루틴, FAQ를 정리했습니다. 개인차가 있어 패치 테스트를 권장합니다.") := by
  unfold rule_fix
  simp only [ensure_og_meta_description, ensure_canonical_meta_description,
    ensure_body_length_meta_description, ensure_faq_meta_description,
    ensure_h2_sections_meta_description, ensure_cta_meta_description,
    ensure_h1_meta_description]

theorem rule_fix_og_title (p : Page) (kw : Str) (sup : List Str) (intent : Str)
    (r : Int) (b : Str) :
    (rule_fix p kw sup intent (some r) (some b)).og_title =
      ensure_nonempty (strip p.og_title)
        (clamp_text_len (strip p.meta_title) 20 60 (kw ++ str " 가이드 | 선택 기준")) := by
  unfold rule_fix
  simp only [ensure_og_og_title, ensure_canonical_og_title, ensure_body_length_og_title,
    ensure_faq_og_title, ensure_h2_sections_og_title, ensure_cta_og_title, ensure_h1_og_title,
    ensure_canonical_meta_title, ensure_body_length_meta_title, ensure_faq_meta_title,
    ensure_h2_sections_meta_title, ensure_cta_meta_title, ensure_h1_meta_title]

theorem rule_fix_og_description (p : Page) (kw : Str) (sup : List Str) (intent : Str)
    (r : Int) (b : Str) :
    (rule_fix p kw sup intent (some r) (some b)).og_description =
      ensure_nonempty (strip p.og_description)
        (clamp_text_len (strip p.meta_description) 60 170
          (kw ++ str " 선택 기준, 사용 루틴, FAQ를 정리했습니다. 개인차가 있어 패치 테스트를 권장합니다.")) := by
  unfold rule_fix
  simp only [ensure_og_og_description, ensure_canonical_og_description,
    ensure_body_length_og_description, ensure_faq_og_description,
    ensure_h2_sections_og_description, ensure_cta_og_description, ensure_h1_og_description,
    ensure_canonical_meta_description, ensure_body_length_meta_description,
    ensure_faq_meta_description, ensure_h2_sections_meta_description,
    ensure_cta_meta_description, ensure_h1_meta_description]

theorem rule_fix_canonical (p : Page) (kw : Str) (sup : List Str) (intent : Str)
    (r : Int) (b : Str) :
    (rule_fix p kw sup intent (some r) (some b)).canonical_url =
      if (strip (strip p.canonical_url)).isEmpty then
        rstripSlash (if b.isEmpty then str "https://example.com" else b) ++
          str "/r/" ++ str (toString r)
      else strip p.canonical_url := by
  unfold rule_fix
  simp only [ensure_og_canonical, ensure_canonical_canonical, ensure_body_length_canonical,
    ensure_faq_canonical, ensure_h2_sections_canonical, ensure_cta_canonical,
    ensure_h1_canonical]

/-- Vacuous implication from a refuted antecedent. -/
theorem vac {A B : Prop} (h : ¬A) : A → B := fun a => absurd a h

/-- Every emitted audit issue witnesses its own trigger: rules T001/T003/T005
and T007 only appear when the corresponding page field strips to empty, and
S002 never appears. -/
theorem auditIssue_trigger (p : Page) (kw : Str) (sup : List Str) (intent : Str) :
    ∀ i ∈ (seo_audit_page p kw sup intent).issues,
      (i.rule_id = str "T001" → (strip p.meta_title).isEmpty = true) ∧
      (i.rule_id = str "T003" → (strip p.meta_description).isEmpty = true) ∧
      (i.rule_id = str "T005" → (strip p.canonical_url).isEmpty = true) ∧
      (i.rule_id = str "T007" →
        (strip p.og_title).isEmpty = true ∨ (strip p.og_description).isEmpty = true) ∧
      i.rule_id ≠ str "S002" := by
  intro i hi
  rw [seo_audit_page_issues] at hi
  obtain ⟨x, hb, rfl⟩ := List.mem_map.1 hi
  unfold auditBlocks at hb
  simp only [List.mem_append] at hb
  rcases hb with (((((((((((((hb | hb) | hb) | hb) | hb) | hb) | hb) | hb) | hb) | hb) | hb) | hb) | hb) | hb) | hb
  · -- T001 / T002
    by_cases h1 : (strip p.meta_title).isEmpty = true
    · rw [if_pos h1] at hb
      obtain rfl := List.mem_singleton.1 hb
      exact ⟨fun _ => h1, vac (by decide), vac (by decide), vac (by decide), by decide⟩
    · rw [if_neg h1] at hb
      obtain ⟨_, rfl⟩ := mem_if_singleton hb
      exact ⟨vac (by decide), vac (by decide), vac (by decide), vac (by decide), by decide⟩
  · -- T003 / T004
    by_cases h3 : (strip p.meta_description).isEmpty = true
    · rw [if_pos h3] at hb
      obtain rfl := List.mem_singleton.1 hb
      exact ⟨vac (by decide), fun _ => h3, vac (by decide), vac (by decide), by decide⟩
    · rw [if_neg h3] at hb
      obtain ⟨_, rfl⟩ := mem_if_singleton hb
      exact ⟨vac (by decide), vac (by decide), vac (by decide), vac (by decide), by decide⟩
  · -- T005
    obtain ⟨h5, rfl⟩ := mem_if_singleton hb
    exact ⟨vac (by decide), vac (by decide), fun _ => h5, vac (by decide), by decide⟩
  · -- T006
    obtain ⟨_, rfl⟩ := mem_if_singleton hb
    exact ⟨vac (by decide), vac (by decide), vac (by decide), vac (by decide), by decide⟩
  · -- T007
    obtain ⟨h7, rfl⟩ := mem_if_singleton hb
    exact ⟨vac (by decide), vac (by decide), vac (by decide), fun _ => h7, by decide⟩
  · -- C001
    obtain ⟨_, rfl⟩ := mem_if_singleton hb
    exact ⟨vac (by decide), vac (by decide), vac (by decide), vac (by decide), by decide⟩
  · -- C002
    obtain ⟨_, rfl⟩ := mem_if_singleton hb
    exact ⟨vac (by decide), vac (by decide), vac (by decide), vac (by decide), by decide⟩
  · -- C003
    obtain ⟨_, rfl⟩ := mem_if_singleton hb
    exact ⟨vac (by decide), vac (by decide), vac (by decide), vac (by decide), by decide⟩
  · -- C004
    obtain ⟨_, rfl⟩ := mem_if_singleton hb
    exact ⟨vac (by decide), vac (by decide), vac (by decide), vac (by decide), by decide⟩
  · -- C005
    obtain ⟨_, rfl⟩ := mem_if_singleton hb
    exact ⟨vac (by decide), vac (by decide), vac (by decide), vac (by decide), by decide⟩
  · -- C007
    obtain ⟨_, rfl⟩ := mem_if_singleton hb
    exact ⟨vac (by decide), vac (by decide), vac (by decide), vac (by decide), by decide⟩
  · -- E002
    obtain ⟨_, rfl⟩ := mem_if_singleton hb
    exact ⟨vac (by decide), vac (by decide), vac (by decide), vac (by decide), by decide⟩
  · -- E001
    obtain ⟨_, rfl⟩ := mem_if_singleton hb
    exact ⟨vac (by decide), vac (by decide), vac (by decide), vac (by decide), by decide⟩
  · -- S001
    obtain ⟨_, rfl⟩ := mem_if_singleton hb
    exact ⟨vac (by decide), vac (by decide), vac (by decide), vac (by decide), by decide⟩
  · -- S002: contradictory condition
    obtain ⟨⟨h3, hflag⟩, rfl⟩ := mem_if_singleton hb
    exfalso
    have hlen : 3 ≤ p.faq.length := le_trans h3 (List.length_filter_le _ _)
    have : auditHasFaqJsonld p = true := by
      simp [auditHasFaqJsonld, hlen]
    rw [this] at hflag
    cases hflag

/-- A page the Enforcement Engine leaves essentially unchanged (all fields
already inside the engine's own windows) but which still fails many audit
rules: title length 25 (fix window 20–60, audit window 30–60), description
length 65 (fix 60–170, audit 70–160), two `<h1>` pairs, two unclosed `<h2`
openings (fix counts openings, audit counts pairs), a banned term, a
fix-only disclaimer word, one supporting hit, and three incomplete FAQs. -/
def pageResidual : Page :=
  { meta_title := List.replicate 25 't',
    meta_description := List.replicate 65 'd',
    canonical_url := str "https://e.com/x",
    og_title := str "x", og_description := str "x",
    h1 := str "크림 소개",
    body_html := str "<h1>x</h1><h1>y</h1><h2 a><h2 b> 크림 완치 전문가" ++
      (List.replicate 355 (str " a")).flatten,
    cta := str "x",
    faq := [⟨str "q1", []⟩, ⟨str "q2", []⟩, ⟨str "q3", []⟩],
    has_faq_jsonld := true }

/-- A page with an empty body: the engine's three padding rounds cannot reach
350 audit words, and the canned sections push the keyword density over 3%. -/
def pageEmptyBody : Page :=
  { meta_title := List.replicate 35 'a',
    meta_description := List.replicate 100 'd',
    canonical_url := str "https://e.com/x",
    og_title := str "x", og_description := str "x",
    h1 := str "크림",
    body_html := [],
    cta := str "x",
    faq := [⟨str "q1", str "a1"⟩, ⟨str "q2", str "a2"⟩, ⟨str "q3", str "a3"⟩],
    has_faq_jsonld := true }

/-- Claim C3 counterexample: one Enforcement Engine pass still leaves issues
T002, T004, T006, C003, C004, E002, E001 and S001 on `pageResidual`, and C005
(plus C007) on `pageEmptyBody` — all of which the claim says cannot appear. -/
theorem c3_residual_issues :
    ((seo_audit_page
        (rule_fix pageResidual (str "크림") [str "zz"] [] (some 1) (some (str "https://e.com")))
        (str "크림") [str "zz"] []).issues.map Issue.rule_id =
      [str "T002", str "T004", str "T006", str "C003", str "C004", str "E002",
       str "E001", str "S001"]) ∧
    ((seo_audit_page
        (rule_fix pageEmptyBody (str "크림") [] (str "구매형") (some 1)
          (some (str "https://e.com")))
        (str "크림") [] (str "구매형")).issues.map Issue.rule_id =
      [str "C005", str "C007"]) := by
  constructor
  · decide
  · decide

/-- Claim C3 (amended): a single Enforcement Engine pass does guarantee the
absence of audit rules T001, T003, T005, T007 and S002 (for a stripped primary
keyword and provided run id / base url), but of no others: T002, T004, T006,
C003, C004, C005, E001, E002 and S001 can all survive it (see the
counterexample). -/
theorem c3_guaranteed_rules_absent (p : Page) (kw : Str) (sup : List Str) (intent : Str)
    (r : Int) (b : Str) (hkw : strip kw = kw) :
    ∀ i ∈ (seo_audit_page (rule_fix p kw sup intent (some r) (some b)) kw sup intent).issues,
      i.rule_id ≠ str "T001" ∧ i.rule_id ≠ str "T003" ∧ i.rule_id ≠ str "T005" ∧
      i.rule_id ≠ str "T007" ∧ i.rule_id ≠ str "S002" := by
  intro i hi
  obtain ⟨h1, h3, h5, h7, hs⟩ :=
    auditIssue_trigger (rule_fix p kw sup intent (some r) (some b)) kw sup intent i hi
  have hTitle : ((rule_fix p kw sup intent (some r) (some b)).meta_title).any nsp = true := by
    rw [rule_fix_meta_title]
    exact clamp_any_nonspace _ _ _ _ (by omega) (by omega) (pad_take2_any hkw (by decide))
  have hDesc :
      ((rule_fix p kw sup intent (some r) (some b)).meta_description).any nsp = true := by
    rw [rule_fix_meta_description]
    exact clamp_any_nonspace _ _ _ _ (by omega) (by omega) (pad_take2_any hkw (by decide))
  have hOgT :
      (strip (rule_fix p kw sup intent (some r) (some b)).og_title).isEmpty = false := by
    rw [rule_fix_og_title]
    exact ensure_nonempty_strip_ne _ _
      (clamp_any_nonspace _ _ _ _ (by omega) (by omega) (pad_take2_any hkw (by decide)))
  have hOgD :
      (strip (rule_fix p kw sup intent (some r) (some b)).og_description).isEmpty = false := by
    rw [rule_fix_og_description]
    exact ensure_nonempty_strip_ne _ _
      (clamp_any_nonspace _ _ _ _ (by omega) (by omega) (pad_take2_any hkw (by decide)))
  have hCanon :
      (strip (rule_fix p kw sup intent (some r) (some b)).canonical_url).isEmpty = false := by
    rw [rule_fix_canonical]
    by_cases h : (strip (strip p.canonical_url)).isEmpty = true
    · rw [if_pos h]
      apply strip_isEmpty_false
      have hr : ((str "/r/" : Str).any nsp) = true := by decide
      rw [List.any_append, List.any_append, hr]
      simp
    · rw [if_neg h]
      exact Bool.eq_false_iff.2 h
  refine ⟨?_, ?_, ?_, ?_, hs⟩
  · intro h
    have hv := h1 h
    rw [strip_isEmpty_false hTitle] at hv
    exact absurd hv (by decide)
  · intro h
    have hv := h3 h
    rw [strip_isEmpty_false hDesc] at hv
    exact absurd hv (by decide)
  · intro h
    have hv := h5 h
    rw [hCanon] at hv
    exact absurd hv (by decide)
  · intro h
    rcases h7 h with hv | hv
    · rw [hOgT] at hv
      exact absurd hv (by decide)
    · rw [hOgD] at hv
      exact absurd hv (by decide)

theorem c3_guaranteed_rules_absent_witness :
    strip (str "크림") = str "크림" ∧
    (⟨str "T002", str "WARN"⟩ : Issue) ∈ (seo_audit_page
        (rule_fix pageResidual (str "크림") [str "zz"] [] (some 1) (some (str "https://e.com")))
        (str "크림") [str "zz"] []).issues ∧
    ((⟨str "T002", str "WARN"⟩ : Issue).rule_id ≠ str "T001" ∧
      (⟨str "T002", str "WARN"⟩ : Issue).rule_id ≠ str "T003" ∧
      (⟨str "T002", str "WARN"⟩ : Issue).rule_id ≠ str "T005" ∧
      (⟨str "T002", str "WARN"⟩ : Issue).rule_id ≠ str "T007" ∧
      (⟨str "T002", str "WARN"⟩ : Issue).rule_id ≠ str "S002") :=
  ⟨by decide, by decide,
    c3_guaranteed_rules_absent pageResidual (str "크림") [str "zz"] [] 1
      (str "https://e.com") (by decide) ⟨str "T002", str "WARN"⟩ (by decide)⟩

/-! ## Claim C5: the A/B recommendation policy

The `math.erf`-based p-value is analysed through the Gaussian tail bound
`1 - erf a ≤ exp (-a²) / (a √π)`. -/

open MeasureTheory Filter

theorem exp_neg_sq_integrableOn (s : Set ℝ) :
    IntegrableOn (fun t : ℝ => Real.exp (-t ^ 2)) s := by
  have h : Integrable (fun t : ℝ => Real.exp (-t ^ 2)) := by
    have := integrable_exp_neg_mul_sq (show (0:ℝ) < 1 by norm_num)
    simpa using this
  exact h.integrableOn

theorem mul_exp_neg_sq_integrableOn (s : Set ℝ) :
    IntegrableOn (fun t : ℝ => t * Real.exp (-t ^ 2)) s := by
  have h : Integrable (fun t : ℝ => t * Real.exp (-t ^ 2)) := by
    have := integrable_mul_exp_neg_mul_sq (show (0:ℝ) < 1 by norm_num)
    simpa using this
  exact h.integrableOn

theorem erf_zero : erf 0 = 0 := by
  simp [erf, intervalIntegral.integral_same]

theorem one_sub_erf (a : ℝ) (ha : 0 ≤ a) :
    1 - erf a = 2 / Real.sqrt Real.pi * ∫ t in Set.Ioi a, Real.exp (-t ^ 2) := by
  have hg : (∫ t in Set.Ioi (0:ℝ), Real.exp (-t ^ 2)) = Real.sqrt Real.pi / 2 := by
    have := integral_gaussian_Ioi 1
    simpa using this
  have hsplit : (∫ t in Set.Ioc (0:ℝ) a, Real.exp (-t ^ 2)) +
      (∫ t in Set.Ioi a, Real.exp (-t ^ 2)) = Real.sqrt Real.pi / 2 := by
    rw [← hg, ← MeasureTheory.setIntegral_union (Set.Ioc_disjoint_Ioi le_rfl)
      measurableSet_Ioi (exp_neg_sq_integrableOn _) (exp_neg_sq_integrableOn _),
      Set.Ioc_union_Ioi_eq_Ioi ha]
  have herf : erf a = 2 / Real.sqrt Real.pi * ∫ t in Set.Ioc (0:ℝ) a, Real.exp (-t ^ 2) := by
    unfold erf
    rw [intervalIntegral.integral_of_le ha]
  have hpi : Real.sqrt Real.pi ≠ 0 := ne_of_gt (Real.sqrt_pos.2 Real.pi_pos)
  have h1 : (2 : ℝ) / Real.sqrt Real.pi * (Real.sqrt Real.pi / 2) = 1 := by
    field_simp
  calc 1 - erf a
      = 2 / Real.sqrt Real.pi * (Real.sqrt Real.pi / 2) -
          2 / Real.sqrt Real.pi * ∫ t in Set.Ioc (0:ℝ) a, Real.exp (-t ^ 2) := by
        rw [h1, herf]
    _ = 2 / Real.sqrt Real.pi *
          ((Real.sqrt Real.pi / 2) - ∫ t in Set.Ioc (0:ℝ) a, Real.exp (-t ^ 2)) := by ring
    _ = 2 / Real.sqrt Real.pi * ∫ t in Set.Ioi a, Real.exp (-t ^ 2) := by
        rw [← hsplit]; ring

theorem integral_Ioi_mul_exp (a : ℝ) :
    (∫ t in Set.Ioi a, t * Real.exp (-t ^ 2)) = Real.exp (-a ^ 2) / 2 := by
  have hderiv : ∀ x ∈ Set.Ioi a,
      HasDerivAt (fun t : ℝ => -Real.exp (-t ^ 2) / 2) (x * Real.exp (-x ^ 2)) x := by
    intro x _
    have h1 : HasDerivAt (fun t : ℝ => -t ^ 2) (-(2 * x)) x := by
      have := (hasDerivAt_pow 2 x).neg
      simpa using this
    have h2 := h1.exp
    have h3 := (h2.neg).div_const 2
    convert h3 using 1
    ring
  have hcont : ContinuousWithinAt (fun t : ℝ => -Real.exp (-t ^ 2) / 2) (Set.Ici a) a := by
    apply Continuous.continuousWithinAt
    continuity
  have htend : Tendsto (fun t : ℝ => -Real.exp (-t ^ 2) / 2) atTop (nhds 0) := by
    have h1 : Tendsto (fun t : ℝ => -t ^ 2) atTop atBot := by
      rw [tendsto_neg_atBot_iff]
      exact tendsto_pow_atTop two_ne_zero
    have h2 : Tendsto (fun t : ℝ => Real.exp (-t ^ 2)) atTop (nhds 0) :=
      Real.tendsto_exp_atBot.comp h1
    have h3 := (h2.neg).div_const 2
    simpa using h3
  have := integral_Ioi_of_hasDerivAt_of_tendsto hcont hderiv
    (mul_exp_neg_sq_integrableOn _) htend
  rw [this]
  ring

theorem integral_Ioi_exp_le (a : ℝ) (ha : 0 < a) :
    (∫ t in Set.Ioi a, Real.exp (-t ^ 2)) ≤ Real.exp (-a ^ 2) / (2 * a) := by
  have hmono : (∫ t in Set.Ioi a, Real.exp (-t ^ 2)) ≤
      ∫ t in Set.Ioi a, (1 / a) * (t * Real.exp (-t ^ 2)) := by
    apply setIntegral_mono_on (exp_neg_sq_integrableOn _)
      ((mul_exp_neg_sq_integrableOn _).const_mul _) measurableSet_Ioi
    intro t ht
    have hat : a ≤ t := le_of_lt ht
    have h1 : (1 : ℝ) ≤ t / a := (one_le_div ha).2 hat
    have h2 : (0 : ℝ) ≤ Real.exp (-t ^ 2) := (Real.exp_pos _).le
    calc Real.exp (-t ^ 2) = 1 * Real.exp (-t ^ 2) := by ring
      _ ≤ (t / a) * Real.exp (-t ^ 2) := by
          exact mul_le_mul_of_nonneg_right h1 h2
      _ = (1 / a) * (t * Real.exp (-t ^ 2)) := by ring
  have heq : (∫ t in Set.Ioi a, (1 / a) * (t * Real.exp (-t ^ 2))) =
      (1 / a) * ∫ t in Set.Ioi a, t * Real.exp (-t ^ 2) := by
    exact integral_mul_left _ _
  rw [heq, integral_Ioi_mul_exp] at hmono
  calc (∫ t in Set.Ioi a, Real.exp (-t ^ 2)) ≤ 1 / a * (Real.exp (-a ^ 2) / 2) := hmono
    _ = Real.exp (-a ^ 2) / (2 * a) := by
        field_simp
        ring

theorem one_sub_erf_lt_tenth (a : ℝ) (ha : 0 < a) (ha2 : a ^ 2 = 100 / 51) :
    1 - erf a < 1 / 10 := by
  have hsp : (0 : ℝ) < Real.sqrt Real.pi := Real.sqrt_pos.2 Real.pi_pos
  have h1 : 1 - erf a ≤ 2 / Real.sqrt Real.pi * (Real.exp (-a ^ 2) / (2 * a)) := by
    rw [one_sub_erf a ha.le]
    exact mul_le_mul_of_nonneg_left (integral_Ioi_exp_le a ha) (by positivity)
  have h2 : 2 / Real.sqrt Real.pi * (Real.exp (-a ^ 2) / (2 * a)) =
      Real.exp (-a ^ 2) / (a * Real.sqrt Real.pi) := by
    field_simp
    ring
  have hasp : (247 : ℝ) / 100 ≤ a * Real.sqrt Real.pi := by
    have hsq : ((247 : ℝ) / 100) ^ 2 ≤ (a * Real.sqrt Real.pi) ^ 2 := by
      rw [mul_pow, ha2, Real.sq_sqrt Real.pi_pos.le]
      nlinarith [Real.pi_gt_d6]
    nlinarith [mul_pos ha hsp]
  have hexp : ((149 : ℝ) / 100) ^ 4 ≤ Real.exp (a ^ 2) := by
    rw [ha2]
    have h0 : (100 : ℝ) / 51 = (4 : ℕ) * (25 / 51) := by norm_num
    rw [h0, Real.exp_nat_mul]
    apply pow_le_pow_left₀ (by norm_num)
    have := Real.add_one_le_exp ((25 : ℝ) / 51)
    linarith
  have hX : (10 : ℝ) < Real.exp (a ^ 2) * (a * Real.sqrt Real.pi) := by
    calc (10 : ℝ) < (149 / 100) ^ 4 * (247 / 100) := by norm_num
      _ ≤ Real.exp (a ^ 2) * (a * Real.sqrt Real.pi) := by
          exact mul_le_mul hexp hasp (by norm_num) (Real.exp_pos _).le
  have hfin : Real.exp (-a ^ 2) / (a * Real.sqrt Real.pi) < 1 / 10 := by
    have hS : (0 : ℝ) < a * Real.sqrt Real.pi := mul_pos ha hsp
    rw [div_lt_div_iff₀ hS (by norm_num : (0:ℝ) < 10), one_mul, Real.exp_neg,
      ← div_eq_inv_mul, div_lt_iff₀ (Real.exp_pos _)]
    linarith [hX]
  rw [h2] at h1
  linarith

theorem p_value_lt_tenth {z : ℝ} (hz : 0 < z) (hz2 : z ^ 2 = 200 / 51) :
    p_value_two_sided z < 0.1 := by
  unfold p_value_two_sided phi_cdf
  rw [abs_of_pos hz]
  have hs2 : (0 : ℝ) < Real.sqrt 2 := Real.sqrt_pos.2 two_pos
  have ha : 0 < z / Real.sqrt 2 := div_pos hz hs2
  have ha2 : (z / Real.sqrt 2) ^ 2 = 100 / 51 := by
    rw [div_pow, Real.sq_sqrt (by norm_num : (0:ℝ) ≤ 2), hz2]
    norm_num
  have := one_sub_erf_lt_tenth _ ha ha2
  norm_num at this ⊢
  linarith

theorem p_value_zero : p_value_two_sided 0 = 1 := by
  unfold p_value_two_sided phi_cdf
  rw [abs_zero]
  rw [show (0:ℝ) / Real.sqrt 2 = 0 by simp, erf_zero]
  norm_num

/-! Field projections of `ab_ctr_summary` and the behaviour of its
recommendation. -/

theorem ab_recommend_proj (events : List ABEvent) (m : Nat) :
    (ab_ctr_summary events m).recommend_variant =
      abRecommend m (abCount events (str "A") (str "view"))
        (abCount events (str "A") (str "cta_click"))
        (abCount events (str "B") (str "view"))
        (abCount events (str "B") (str "cta_click")) := rfl

theorem ab_pval_proj (events : List ABEvent) (m : Nat) :
    (ab_ctr_summary events m).p_value =
      abPval (abCount events (str "A") (str "view"))
        (abCount events (str "A") (str "cta_click"))
        (abCount events (str "B") (str "view"))
        (abCount events (str "B") (str "cta_click")) := rfl

theorem ab_Aview_proj (events : List ABEvent) (m : Nat) :
    (ab_ctr_summary events m).A.view = abCount events (str "A") (str "view") := rfl

theorem ab_Bview_proj (events : List ABEvent) (m : Nat) :
    (ab_ctr_summary events m).B.view = abCount events (str "B") (str "view") := rfl

theorem ab_Actr_proj (events : List ABEvent) (m : Nat) :
    (ab_ctr_summary events m).A.ctr =
      abCtr (abCount events (str "A") (str "cta_click"))
        (abCount events (str "A") (str "view")) := rfl

theorem ab_Bctr_proj (events : List ABEvent) (m : Nat) :
    (ab_ctr_summary events m).B.ctr =
      abCtr (abCount events (str "B") (str "cta_click"))
        (abCount events (str "B") (str "view")) := rfl

theorem ab_uplift_proj (events : List ABEvent) (m : Nat) :
    (ab_ctr_summary events m).uplift =
      abCtr (abCount events (str "B") (str "cta_click"))
          (abCount events (str "B") (str "view")) -
        abCtr (abCount events (str "A") (str "cta_click"))
          (abCount events (str "A") (str "view")) := rfl

theorem abRecommend_ne_none (m av ac bv bc : Nat) :
    abRecommend m av ac bv bc ≠ none ↔
      (m ≤ av ∧ m ≤ bv ∧ abPval av ac bv bc < 0.1) := by
  unfold abRecommend
  split
  · next h => exact iff_of_true (by simp) h
  · next h => exact iff_of_false (by simp) h

theorem abRecommend_some (m av ac bv bc : Nat) (v : Str)
    (h : abRecommend m av ac bv bc = some v) :
    (v = str "B" ∧ abCtr ac av < abCtr bc bv) ∨
    (v = str "A" ∧ abCtr bc bv < abCtr ac av) := by
  unfold abRecommend at h
  split at h
  · next hcond =>
    rw [Option.some_inj] at h
    split at h
    · next hlt => exact Or.inl ⟨h.symm, hlt⟩
    · next hnlt =>
      rcases lt_or_eq_of_le (le_of_not_lt hnlt) with hlt | heq
      · exact Or.inr ⟨h.symm, hlt⟩
      · exfalso
        have hpv := hcond.2.2
        unfold abPval at hpv
        split at hpv
        · next hP =>
          unfold abZ at hpv
          rw [if_pos hP, heq, sub_self, zero_div] at hpv
          simp only [p_value_zero] at hpv
          norm_num at hpv
        · next hP => norm_num at hpv
  · next => exact Option.noConfusion h

/-- The spec's significant A/B sample: 100 A views, 10 A clicks, 100 B views,
20 B clicks. -/
def ev1 : List ABEvent :=
  List.replicate 100 ⟨str "A", str "view"⟩ ++ List.replicate 10 ⟨str "A", str "cta_click"⟩ ++
  List.replicate 100 ⟨str "B", str "view"⟩ ++ List.replicate 20 ⟨str "B", str "cta_click"⟩

/-- The spec's under-sampled A/B data: 3 A views, 1 A click, 2 B views,
1 B click. -/
def ev2 : List ABEvent :=
  List.replicate 3 ⟨str "A", str "view"⟩ ++ [⟨str "A", str "cta_click"⟩] ++
  List.replicate 2 ⟨str "B", str "view"⟩ ++ [⟨str "B", str "cta_click"⟩]

theorem abZ_ev1 : abZ 100 10 100 20 = (1 / 10) / Real.sqrt (51 / 20000) := by
  unfold abZ abCtr
  rw [if_pos (⟨by norm_num, by norm_num⟩ : (0:ℕ) < 100 ∧ (0:ℕ) < 100)]
  norm_num

theorem abPval_ev1 : abPval 100 10 100 20 < 0.1 := by
  unfold abPval
  rw [if_pos (⟨by norm_num, by norm_num⟩ : (0:ℕ) < 100 ∧ (0:ℕ) < 100)]
  apply p_value_lt_tenth
  · rw [abZ_ev1]
    positivity
  · rw [abZ_ev1, div_pow, Real.sq_sqrt (by norm_num : (0:ℝ) ≤ 51 / 20000)]
    norm_num

theorem abRecommend_ev1 : abRecommend 20 100 10 100 20 = some (str "B") := by
  unfold abRecommend
  rw [if_pos ⟨by norm_num, by norm_num, abPval_ev1⟩]
  have hctr : abCtr 10 100 < abCtr 20 100 := by unfold abCtr; norm_num
  rw [if_pos hctr]

theorem abRecommend_ev2 : abRecommend 20 3 1 2 1 = none := by
  unfold abRecommend
  rw [if_neg (fun h => absurd h.1 (by norm_num))]

/-- Claim C5: `ab_ctr_summary` recommends a variant exactly when both variants
reach the view floor and the two-sided p-value is under 0.1; a recommended
variant always has the strictly higher CTR; on 100/10 vs 100/20 events the
recommendation is "B" with uplift 0.10, and on 3/1 vs 2/1 events it is null. -/
theorem c5_ab_recommendation :
    (∀ (events : List ABEvent) (m : Nat),
      (ab_ctr_summary events m).recommend_variant ≠ none ↔
        (m ≤ (ab_ctr_summary events m).A.view ∧ m ≤ (ab_ctr_summary events m).B.view ∧
         (ab_ctr_summary events m).p_value < 0.1)) ∧
    (∀ (events : List ABEvent) (m : Nat) (v : Str),
      (ab_ctr_summary events m).recommend_variant = some v →
        (v = str "B" ∧ (ab_ctr_summary events m).A.ctr < (ab_ctr_summary events m).B.ctr) ∨
        (v = str "A" ∧ (ab_ctr_summary events m).B.ctr < (ab_ctr_summary events m).A.ctr)) ∧
    ((ab_ctr_summary ev1 20).recommend_variant = some (str "B") ∧
     (ab_ctr_summary ev1 20).uplift = 1 / 10) ∧
    (ab_ctr_summary ev2 20).recommend_variant = none := by
  refine ⟨?_, ?_, ?_, ?_⟩
  · intro events m
    rw [ab_recommend_proj, ab_Aview_proj, ab_Bview_proj, ab_pval_proj]
    exact abRecommend_ne_none _ _ _ _ _
  · intro events m v h
    rw [ab_recommend_proj] at h
    rw [ab_Actr_proj, ab_Bctr_proj]
    exact abRecommend_some _ _ _ _ _ _ h
  · have h1 : abCount ev1 (str "A") (str "view") = 100 := by decide
    have h2 : abCount ev1 (str "A") (str "cta_click") = 10 := by decide
    have h3 : abCount ev1 (str "B") (str "view") = 100 := by decide
    have h4 : abCount ev1 (str "B") (str "cta_click") = 20 := by decide
    constructor
    · rw [ab_recommend_proj, h1, h2, h3, h4, abRecommend_ev1]
    · rw [ab_uplift_proj, h1, h2, h3, h4]
      unfold abCtr
      norm_num
  · have h1 : abCount ev2 (str "A") (str "view") = 3 := by decide
    have h2 : abCount ev2 (str "A") (str "cta_click") = 1 := by decide
    have h3 : abCount ev2 (str "B") (str "view") = 2 := by decide
    have h4 : abCount ev2 (str "B") (str "cta_click") = 1 := by decide
    rw [ab_recommend_proj, h1, h2, h3, h4, abRecommend_ev2]

theorem c5_ab_recommendation_witness :
    (str "B" = str "B" ∧ (ab_ctr_summary ev1 20).A.ctr < (ab_ctr_summary ev1 20).B.ctr) ∨
    (str "B" = str "A" ∧ (ab_ctr_summary ev1 20).B.ctr < (ab_ctr_summary ev1 20).A.ctr) :=
  c5_ab_recommendation.2.1 ev1 20 (str "B") c5_ab_recommendation.2.2.1.1

/-! ## Claim C1 (amended): idempotence on already-compliant pages

Each pipeline stage of `_rule_fix` is the identity when its own trigger
condition is already satisfied. -/

theorem clamp_id (s pad : Str) (lo hi : Nat) (hs : strip s = s) (hlo0 : 0 < lo)
    (h1 : lo ≤ s.length) (h2 : s.length ≤ hi) : clamp_text_len s lo hi pad = s := by
  have hne : s ≠ [] := by
    intro h
    rw [h] at h1
    simp at h1
    omega
  simp only [clamp_text_len]
  rw [hs]
  rw [if_neg (by simp [List.isEmpty_iff, hne] : ¬(s.isEmpty = true))]
  rw [if_neg (by omega : ¬(s.length < lo))]
  rw [if_neg (by omega : ¬(hi < s.length))]

theorem ensure_nonempty_id (s fb : Str) (hs : strip s = s) (hne : s ≠ []) :
    ensure_nonempty s fb = s := by
  simp only [ensure_nonempty]
  rw [hs]
  rw [if_neg (by simp [List.isEmpty_iff, hne])]

theorem ensure_h1_id (kw : Str) (p : Page) (hs : strip p.h1 = p.h1) (hne : p.h1 ≠ []) :
    ensure_h1 kw p = p := by
  unfold ensure_h1
  rw [ensure_nonempty_id _ _ hs hne]

theorem ensure_cta_id (intent : Str) (p : Page) (hs : strip p.cta = p.cta)
    (hne : p.cta ≠ []) : ensure_cta intent p = p := by
  unfold ensure_cta
  rw [if_pos (show (!(strip p.cta).isEmpty) = true by
    rw [hs]
    simp [List.isEmpty_eq_false.2 hne])]

theorem ensure_h2_sections_id (kw intent : Str) (p : Page)
    (h : min_h2 intent ≤ count_h2 p.body_html) : ensure_h2_sections kw intent p = p := by
  simp only [ensure_h2_sections]
  rw [if_pos h]

theorem ensure_faq_id (kw : Str) (p : Page) (h3 : 3 ≤ p.faq.length)
    (hfl : p.has_faq_jsonld = true) : ensure_faq kw 3 p = p := by
  unfold ensure_faq
  rw [faqFold_stable h3]
  rw [← hfl]

theorem ensure_body_length_id (kw : Str) (p : Page)
    (h : 360 ≤ word_count (strip_tags p.body_html)) : ensure_body_length kw 360 p = p := by
  simp only [ensure_body_length]
  rw [if_pos h]

theorem ensure_primary_in_intro_id (body kw : Str)
    (h : kw.isEmpty = true ∨
      occurs kw ((str " ").intercalate ((tokens (strip_tags body)).take 120)) = true) :
    ensure_primary_in_intro body kw = body := by
  simp only [ensure_primary_in_intro]
  rw [if_neg]
  rcases h with h | h
  · simp [h]
  · simp [h]

theorem ensure_supporting_hits_id (body : Str) (sup : List Str)
    (h : (sup.filter (fun s => !s.isEmpty)).isEmpty = true ∨
      2 ≤ ((sup.filter (fun s => !s.isEmpty)).filter
        (fun s => occurs (lower s) (lower (strip_tags body)))).length) :
    ensure_supporting_hits body sup 2 = body := by
  simp only [ensure_supporting_hits]
  rcases h with h | h
  · rw [if_pos h]
  · by_cases he : (sup.filter (fun s => !s.isEmpty)).isEmpty = true
    · rw [if_pos he]
    · rw [if_neg he, if_pos h]

theorem ensure_disclaimer_id (body : Str)
    (h : (occurs (str "개인차") (strip_tags body) || occurs (str "전문가") (strip_tags body) ||
      occurs (str "이상 반응") (strip_tags body)) = true) :
    ensure_disclaimer body = body := by
  simp only [ensure_disclaimer]
  rw [if_pos h]

theorem reduce_keyword_density_id (body kw : Str)
    (h : kw.isEmpty = true ∨
      countOcc kw (strip_tags body) * 100 ≤ 3 * max (word_count (strip_tags body)) 1) :
    reduce_keyword_density body kw 3 100 = body := by
  simp only [reduce_keyword_density]
  by_cases hk : kw.isEmpty = true
  · rw [if_pos hk]
  · rw [if_neg hk]
    by_cases hw : word_count (strip_tags body) = 0
    · rw [if_pos hw]
    · rw [if_neg hw]
      rcases h with h | h
      · exact absurd h hk
      · rw [if_pos h]

theorem ensure_canonical_id (r : Int) (b : Str) (p : Page)
    (hs : strip p.canonical_url = p.canonical_url) (hne : p.canonical_url ≠ []) :
    ensure_canonical r b p = p := by
  unfold ensure_canonical
  rw [if_pos (show (!(strip p.canonical_url).isEmpty) = true by
    rw [hs]
    simp [List.isEmpty_eq_false.2 hne])]

theorem ensure_og_id (p : Page)
    (hot : strip p.og_title = p.og_title) (hotne : p.og_title ≠ [])
    (hod : strip p.og_description = p.og_description) (hodne : p.og_description ≠ []) :
    ensure_og p = p := by
  unfold ensure_og
  rw [ensure_nonempty_id _ _ hot hotne, ensure_nonempty_id _ _ hod hodne]

/-- A page (with its targeting) on which every trigger of `_rule_fix` is
already satisfied: all string fields stripped, lengths inside the engine's own
windows, enough `<h2>` openings, FAQ entries and words, the keyword in the
intro, supporting coverage, a disclaimer word, and density at most 3%. -/
abbrev compliant (p : Page) (kw : Str) (sup : List Str) (intent : Str) : Prop :=
  strip p.meta_title = p.meta_title ∧ 20 ≤ p.meta_title.length ∧
    p.meta_title.length ≤ 60 ∧
  strip p.meta_description = p.meta_description ∧ 60 ≤ p.meta_description.length ∧
    p.meta_description.length ≤ 170 ∧
  strip p.h1 = p.h1 ∧ p.h1 ≠ [] ∧
  strip p.cta = p.cta ∧ p.cta ≠ [] ∧
  strip p.canonical_url = p.canonical_url ∧ p.canonical_url ≠ [] ∧
  strip p.og_title = p.og_title ∧ p.og_title ≠ [] ∧
  strip p.og_description = p.og_description ∧ p.og_description ≠ [] ∧
  strip p.body_html = p.body_html ∧
  min_h2 intent ≤ count_h2 p.body_html ∧
  3 ≤ p.faq.length ∧ p.has_faq_jsonld = true ∧
  360 ≤ word_count (strip_tags p.body_html) ∧
  (kw.isEmpty = true ∨
    occurs kw ((str " ").intercalate ((tokens (strip_tags p.body_html)).take 120)) = true) ∧
  ((sup.filter (fun s => !s.isEmpty)).isEmpty = true ∨
    2 ≤ ((sup.filter (fun s => !s.isEmpty)).filter
      (fun s => occurs (lower s) (lower (strip_tags p.body_html)))).length) ∧
  (occurs (str "개인차") (strip_tags p.body_html) ||
    occurs (str "전문가") (strip_tags p.body_html) ||
    occurs (str "이상 반응") (strip_tags p.body_html)) = true ∧
  (kw.isEmpty = true ∨
    countOcc kw (strip_tags p.body_html) * 100 ≤
      3 * max (word_count (strip_tags p.body_html)) 1)

/-- Claim C1 (amended): `_rule_fix` is not idempotent in general (see the
counterexample), but on already-compliant pages it is the identity, so
applying it twice equals applying it once, field for field. -/
theorem c1_rule_fix_idempotent_on_compliant (p : Page) (kw : Str) (sup : List Str)
    (intent : Str) (r : Int) (b : Str) (h : compliant p kw sup intent) :
    rule_fix p kw sup intent (some r) (some b) = p ∧
    rule_fix (rule_fix p kw sup intent (some r) (some b)) kw sup intent (some r)
      (some b) = rule_fix p kw sup intent (some r) (some b) := by
  obtain ⟨hmt, hmtlo, hmthi, hmd, hmdlo, hmdhi, hh1, hh1ne, hcta, hctane, hcu, hcune,
    hot, hotne, hod, hodne, hbh, hh2, hfaq, hflag, hwc, hintro, hsup, hdisc, hdens⟩ := h
  have hid : rule_fix p kw sup intent (some r) (some b) = p := by
    simp only [rule_fix]
    rw [hmt, hmd, hcu, hot, hod, hh1, hbh, hcta]
    rw [clamp_id _ _ _ _ hmt (by omega) hmtlo hmthi]
    rw [clamp_id _ _ _ _ hmd (by omega) hmdlo hmdhi]
    rw [show (⟨p.meta_title, p.meta_description, p.canonical_url, p.og_title,
        p.og_description, p.h1, p.body_html, p.cta, p.faq, p.has_faq_jsonld⟩ : Page) = p
      from rfl]
    rw [ensure_h1_id _ _ hh1 hh1ne, ensure_cta_id _ _ hcta hctane,
        ensure_h2_sections_id _ _ _ hh2, ensure_faq_id _ _ hfaq hflag,
        ensure_body_length_id _ _ hwc]
    rw [ensure_primary_in_intro_id _ _ hintro]
    rw [ensure_supporting_hits_id _ _ hsup]
    rw [ensure_disclaimer_id _ hdisc]
    rw [reduce_keyword_density_id _ _ hdens]
    rw [show ({ p with body_html := p.body_html } : Page) = p from rfl]
    rw [ensure_canonical_id _ _ _ hcu hcune]
    rw [ensure_og_id _ hot hotne hod hodne]
  refine ⟨hid, ?_⟩
  rw [hid]
  exact hid

/-- A concrete fully-compliant page: an empty primary keyword, stripped
in-window fields, two `<h2>` sections, 361 words and a disclaimer word. -/
def pageCompliant : Page :=
  { meta_title := List.replicate 25 't',
    meta_description := List.replicate 65 'd',
    canonical_url := str "https://e.com/x",
    og_title := str "x", og_description := str "x",
    h1 := str "x",
    body_html := str "<h2>a</h2><h2>b</h2>" ++ (List.replicate 358 (str " a")).flatten ++
      str " 개인차",
    cta := str "x",
    faq := [⟨str "q1", str "a1"⟩, ⟨str "q2", str "a2"⟩, ⟨str "q3", str "a3"⟩],
    has_faq_jsonld := true }

theorem c1_rule_fix_idempotent_on_compliant_witness :
    compliant pageCompliant [] [] [] ∧
    (rule_fix pageCompliant [] [] [] (some 1) (some (str "https://e.com")) = pageCompliant ∧
     rule_fix (rule_fix pageCompliant [] [] [] (some 1) (some (str "https://e.com"))) [] [] []
         (some 1) (some (str "https://e.com")) =
       rule_fix pageCompliant [] [] [] (some 1) (some (str "https://e.com"))) :=
  ⟨by decide, c1_rule_fix_idempotent_on_compliant pageCompliant [] [] [] 1
    (str "https://e.com") (by decide)⟩

end SeoOps

